import Mathlib

/-!
A shallow embedding of the KWin DRM pipeline engine
(src/plugins/platforms/drm/drm_pipeline.cpp, drm_object.cpp, drm_object.h,
drm_object_connector.h) together with proofs about its commit protocol,
property-cell model, and the public pipeline operations.

Kernel interaction (ioctls, buffer allocation, backend rendering) is
modelled by an explicit environment record `Env`; every issued ioctl is
recorded in a trace so that theorems can count kernel calls.

Code of the repository that is only declared but whose definition is not
part of the source tree (the DrmObject commit/rollback/atomicPopulate
fan-out, the connector/crtc/plane .cpp files) is modelled from the spec;
each such definition carries a doc comment starting `Modelled from the
spec:`.
-/

namespace DrmSpec

/-- A scanout buffer handle (DrmBuffer): framebuffer id (0 = invalid),
pixel size and pixel format. -/
structure Buffer where
  bufferId : Nat
  width : Nat
  height : Nat
  format : Nat
deriving Repr, DecidableEq

/-- One kernel property cell (DrmObject::Property, drm_object.h:63-140):
three 64-bit values (pending / next / current), the immutable and legacy
flags, and the enum map built by initEnumMap (keys are the positions in
the expected enum-name list, values the kernel enum values). -/
structure Cell where
  propId : Nat
  pending : Nat
  next : Nat
  current : Nat
  immutable : Bool
  legacy : Bool
  enumMap : List (Nat × Nat)
deriving Repr, DecidableEq

namespace Cell

/-- DrmObject::Property::setPending (drm_object.cpp:150-153):
stores the value unconditionally; there is no immutability check. -/
def setPending (c : Cell) (value : Nat) : Cell :=
  { c with pending := value }

/-- DrmObject::Property::setCurrent (drm_object.cpp:160-163). -/
def setCurrent (c : Cell) (value : Nat) : Cell :=
  { c with current := value }

/-- DrmObject::Property::needsCommit (drm_object.cpp:170-173). -/
def needsCommit (c : Cell) : Bool :=
  c.pending != c.current

/-- DrmObject::Property::hasEnum (drm_object.h:74-76). -/
def hasEnum (c : Cell) (value : Nat) : Bool :=
  (c.enumMap.lookup value).isSome

/-- DrmObject::Property::setEnum (drm_object.h:84-91): when the key is in
the enum map, set pending to the mapped kernel value and return true;
otherwise return false and change nothing.  The immutable flag is not
consulted. -/
def setEnum (c : Cell) (index : Nat) : Bool × Cell :=
  match c.enumMap.lookup index with
  | some v => (true, c.setPending v)
  | none => (false, c)

/-- Modelled from the spec: Property commit_pending — `next ← pending`
(the definition of the commit fan-out is not in the source tree). -/
def commitPending (c : Cell) : Cell :=
  { c with next := c.pending }

/-- Modelled from the spec: Property rollback_pending — `pending ← current`. -/
def rollbackPending (c : Cell) : Cell :=
  { c with pending := c.current }

/-- Modelled from the spec: Property commit — `current ← next` (called only
after a successful non-test atomic commit). -/
def commit (c : Cell) : Cell :=
  { c with current := c.next }

end Cell

/-- The property array of a display object (`m_props`), indexed by the
per-kind PropertyIndex enum; absent cells are `none`. -/
abbrev Props := List (Option Cell)

namespace PropsOps

/-- DrmObject::setPending (drm_object.h:46-54): if the cell at the index
exists, store the pending value there and return true, else return false.
The immutable flag is not consulted. -/
def setPending (props : Props) (idx : Nat) (value : Nat) : Bool × Props :=
  match props.get? idx with
  | some (some c) => (true, props.set idx (some (c.setPending value)))
  | _ => (false, props)

/-- Set an enum-typed cell at an index (Property::setEnum through the
object's array); false if the cell is absent or the enum key unmapped. -/
def setEnum (props : Props) (idx : Nat) (key : Nat) : Bool × Props :=
  match props.get? idx with
  | some (some c) =>
    let r := c.setEnum key
    (r.1, props.set idx (some r.2))
  | _ => (false, props)

/-- The cell at an index, when present. -/
def cellAt (props : Props) (idx : Nat) : Option Cell :=
  (props.get? idx).join

/-- True when the cell at the index exists and has pending ≠ current. -/
def needsCommitAt (props : Props) (idx : Nat) : Bool :=
  match cellAt props idx with
  | some c => c.needsCommit
  | none => false

/-- True when some cell of the array has pending ≠ current. -/
def anyNeedsCommit (props : Props) : Bool :=
  props.any fun oc => match oc with
    | some c => c.needsCommit
    | none => false

/-- Every present cell has pending = current. -/
def clean (props : Props) : Bool :=
  props.all fun oc => match oc with
    | some c => c.pending == c.current
    | none => true

/-- Modelled from the spec: the commit fan-out over an object's cells. -/
def commitPending (props : Props) : Props :=
  props.map (Option.map Cell.commitPending)

/-- Modelled from the spec: rollback fan-out — every cell gets
`pending ← current`. -/
def rollbackPending (props : Props) : Props :=
  props.map (Option.map Cell.rollbackPending)

/-- Modelled from the spec: commit fan-out — every cell gets
`current ← next`. -/
def commit (props : Props) : Props :=
  props.map (Option.map Cell.commit)

/-- Modelled from the spec: the (prop_id, pending) pairs atomic_populate
serializes — every non-immutable, non-legacy cell with pending ≠ current. -/
def atomicEntries (props : Props) : List (Nat × Nat) :=
  props.foldr (fun oc acc => match oc with
    | some c =>
      if !c.immutable && !c.legacy && c.needsCommit then (c.propId, c.pending) :: acc else acc
    | none => acc) []

/-- The (current, next) core of every cell: the part of the shadow state
that a failed commit must not change. -/
def cores (props : Props) : List (Option (Nat × Nat)) :=
  props.map (Option.map fun c => (c.current, c.next))

end PropsOps

/-! ## Property indices and constants -/

/-- DrmConnector::PropertyIndex (drm_object_connector.h:33-46). -/
def connCrtcId : Nat := 0
def connNonDesktop : Nat := 1
def connDpms : Nat := 2
def connEdid : Nat := 3
def connOverscan : Nat := 4
def connVrrCapable : Nat := 5
def connUnderscan : Nat := 6
def connUnderscanVBorder : Nat := 7
def connUnderscanHBorder : Nat := 8
def connBroadcastRgb : Nat := 9
def connTile : Nat := 10

/-- Modelled from the spec: DrmCrtc::PropertyIndex — the crtc header is not
in the source tree; the spec names the CRTC properties ACTIVE, MODE_ID,
GAMMA_LUT, VRR_ENABLED. -/
def crtcActive : Nat := 0
def crtcModeId : Nat := 1
def crtcGammaLut : Nat := 2
def crtcVrrEnabled : Nat := 3

/-- Modelled from the spec: DrmPlane::PropertyIndex — the plane header is
not in the source tree; the spec names CRTC_ID, FB_ID, SRC_{X,Y,W,H},
CRTC_{X,Y,W,H} and rotation. -/
def planeCrtcId : Nat := 0
def planeFbId : Nat := 1
def planeSrcX : Nat := 2
def planeSrcY : Nat := 3
def planeSrcW : Nat := 4
def planeSrcH : Nat := 5
def planeCrtcX : Nat := 6
def planeCrtcY : Nat := 7
def planeCrtcW : Nat := 8
def planeCrtcH : Nat := 9
def planeRotation : Nat := 10

/-- drm.h flag bits used by the commit protocol. -/
def PAGE_FLIP_EVENT : Nat := 1
def PAGE_FLIP_ASYNC : Nat := 2
def ATOMIC_TEST_ONLY : Nat := 256
def ATOMIC_NONBLOCK : Nat := 512
def ATOMIC_ALLOW_MODESET : Nat := 1024

/-- DrmPlane::Transformation bit values (Rotate0 = 1<<0 … ReflectY = 1<<5). -/
def rotate0 : Nat := 1
def rotate90 : Nat := 2
def rotate180 : Nat := 4
def rotate270 : Nat := 8
def reflectX : Nat := 16
def reflectY : Nat := 32

/-! ## Display objects -/

/-- DrmConnector::TilingInfo (drm_object_connector.h:109-118). -/
structure TilingInfo where
  group_id : Int
  tflags : Int
  num_tiles_x : Int
  num_tiles_y : Int
  loc_x : Int
  loc_y : Int
  tile_width : Int
  tile_height : Int
deriving Repr, DecidableEq

/-- The untiled TilingInfo defaults (drm_object_connector.h field
initializers). -/
def TilingInfo.untiled : TilingInfo :=
  ⟨-1, 0, 1, 1, 0, 0, 1, 1⟩

/-- One entry of a connector's mode list: logical size, refresh rate, and
an abstract kernel value standing for the drmModeModeInfo blob the mode
stages into the CRTC MODE_ID property. -/
structure ConnMode where
  w : Nat
  h : Nat
  refreshRate : Nat
  blobVal : Nat
deriving Repr, DecidableEq

def ConnMode.default : ConnMode := ⟨0, 0, 0, 0⟩

/-- DrmConnector: display object plus mode list, the committed and the
pending mode index, and the tiling info. -/
structure Connector where
  props : Props
  modes : List ConnMode
  pendingModeIndex : Nat
  modeIdx : Nat
  tilingInfo : TilingInfo
deriving Repr, DecidableEq

/-- DrmCrtc: display object plus current/next scanout buffer slot. -/
structure Crtc where
  props : Props
  current : Option Buffer
  next : Option Buffer
deriving Repr, DecidableEq

/-- DrmPlane: display object plus current/next scanout buffer slot (the
rotation property carries the transformation). -/
structure Plane where
  props : Props
  current : Option Buffer
  next : Option Buffer
deriving Repr, DecidableEq

namespace Connector

/-- Modelled from the spec: is_tiled ⇔ tiling_info.group_id ≥ 0. -/
def isTiled (c : Connector) : Bool :=
  c.tilingInfo.group_id ≥ 0

/-- Modelled from the spec: set_mode_index(i) updates pending_mode_index. -/
def setModeIndex (c : Connector) (i : Nat) : Connector :=
  { c with pendingModeIndex := i }

/-- Modelled from the spec: the mode the connector is currently set to;
`modeset` stages `currentMode().mode` right after `setModeIndex`, so the
accessor reads the pending index. -/
def currentMode (c : Connector) : ConnMode :=
  c.modes.getD c.pendingModeIndex ConnMode.default

/-- Modelled from the spec: the mode index the pipeline reports. -/
def modeIndex (c : Connector) : Nat :=
  c.pendingModeIndex

/-- Modelled from the spec: total_mode_size(i) multiplies the tile's own
mode size by the tile count when tiled, else returns the mode's size. -/
def totalModeSize (c : Connector) (i : Nat) : Nat × Nat :=
  let m := c.modes.getD i ConnMode.default
  if c.isTiled then
    (m.w * c.tilingInfo.num_tiles_x.toNat, m.h * c.tilingInfo.num_tiles_y.toNat)
  else
    (m.w, m.h)

/-- Modelled from the spec: tile_pos() — the pixel offset of this
connector's tile within the composed surface. -/
def tilePos (c : Connector) : Int × Int :=
  if c.isTiled then
    (c.tilingInfo.loc_x * c.tilingInfo.tile_width, c.tilingInfo.loc_y * c.tilingInfo.tile_height)
  else
    (0, 0)

/-- Modelled from the spec: hasOverscan — the connector exposes either the
overscan property or the underscan triple. -/
def hasOverscan (c : Connector) : Bool :=
  (PropsOps.cellAt c.props connOverscan).isSome || (PropsOps.cellAt c.props connUnderscan).isSome

/-- Modelled from the spec: the staged overscan percentage (pending value
of the overscan cell, or of the underscan vborder cell). -/
def overscan (c : Connector) : Nat :=
  match PropsOps.cellAt c.props connOverscan with
  | some cell => cell.pending
  | none =>
    match PropsOps.cellAt c.props connUnderscanVBorder with
    | some cell => cell.pending
    | none => 0

/-- Modelled from the spec: set_overscan(percent, mode_size) writes the
overscan property, or the Underscan + hborder/vborder triple so a percent
fraction of each edge is blanked; silently a no-op without the property. -/
def setOverscan (c : Connector) (percent : Nat) (modeSize : Nat × Nat) : Connector :=
  match PropsOps.cellAt c.props connOverscan with
  | some _ => { c with props := (PropsOps.setPending c.props connOverscan percent).2 }
  | none =>
    match PropsOps.cellAt c.props connUnderscan with
    | some _ =>
      let hborder := percent * modeSize.1 / (max modeSize.2 1)
      let p1 := (PropsOps.setEnum c.props connUnderscan (if percent = 0 then 0 else 1)).2
      let p2 := (PropsOps.setPending p1 connUnderscanHBorder hborder).2
      let p3 := (PropsOps.setPending p2 connUnderscanVBorder percent).2
      { c with props := p3 }
    | none => c

/-- Modelled from the spec: the connector reports VRR capability through
the (immutable) vrr_capable property's kernel value. -/
def vrrCapable (c : Connector) : Bool :=
  match PropsOps.cellAt c.props connVrrCapable with
  | some cell => cell.current ≠ 0
  | none => false

/-- Modelled from the spec: needs_modeset — a mode-affecting cell (the
CRTC_ID link) has pending ≠ current. -/
def needsModeset (c : Connector) : Bool :=
  PropsOps.needsCommitAt c.props connCrtcId

/-- DrmConnector::commitPending override (drm_object_connector.h:126);
modelled from the spec: cells fan out, and the pending mode index is
promoted to the committed one. -/
def commitPending (c : Connector) : Connector :=
  { c with props := PropsOps.commitPending c.props, modeIdx := c.pendingModeIndex }

/-- DrmConnector::rollbackPending override (drm_object_connector.h:127);
modelled from the spec: cells fan out, and the pending mode index is
restored from the committed one. -/
def rollbackPending (c : Connector) : Connector :=
  { c with props := PropsOps.rollbackPending c.props, pendingModeIndex := c.modeIdx }

/-- Modelled from the spec: commit fan-out (current ← next on every cell). -/
def commit (c : Connector) : Connector :=
  { c with props := PropsOps.commit c.props }

end Connector

namespace Crtc

/-- Modelled from the spec: set_pending_blob stores the freshly created
blob id (here: the abstract blob value, 0 for null data) in the cell's
pending; returns false when the cell is absent. -/
def setPendingBlob (c : Crtc) (idx : Nat) (blob : Option Nat) : Bool × Crtc :=
  let r := PropsOps.setPending c.props idx (blob.getD 0)
  (r.1, { c with props := r.2 })

/-- Modelled from the spec: needs_modeset — ACTIVE or MODE_ID has
pending ≠ current. -/
def needsModeset (c : Crtc) : Bool :=
  PropsOps.needsCommitAt c.props crtcActive || PropsOps.needsCommitAt c.props crtcModeId

def commitPending (c : Crtc) : Crtc := { c with props := PropsOps.commitPending c.props }
def rollbackPending (c : Crtc) : Crtc := { c with props := PropsOps.rollbackPending c.props }
def commit (c : Crtc) : Crtc := { c with props := PropsOps.commit c.props }

/-- DrmCrtc::setNext: stage the buffer the kernel will hold after the flip. -/
def setNext (c : Crtc) (b : Option Buffer) : Crtc := { c with next := b }

def setCurrent (c : Crtc) (b : Option Buffer) : Crtc := { c with current := b }

/-- DrmCrtc::flipBuffer: current ← next on the buffer slot. -/
def flipBuffer (c : Crtc) : Crtc := { c with current := c.next, next := none }

end Crtc

namespace Plane

/-- Modelled from the spec: set(src_rect, dst_rect) stages SRC_X/Y/W/H in
16.16 fixed point and CRTC_X/Y/W/H. -/
def set (p : Plane) (srcPos : Int × Int) (srcSize : Nat × Nat) (dstPos : Int × Int)
    (dstSize : Nat × Nat) : Plane :=
  let st := fun (pr : Props) (idx : Nat) (v : Nat) => (PropsOps.setPending pr idx v).2
  let pr := p.props
  let pr := st pr planeSrcX ((srcPos.1.toNat) * 65536)
  let pr := st pr planeSrcY ((srcPos.2.toNat) * 65536)
  let pr := st pr planeSrcW (srcSize.1 * 65536)
  let pr := st pr planeSrcH (srcSize.2 * 65536)
  let pr := st pr planeCrtcX dstPos.1.toNat
  let pr := st pr planeCrtcY dstPos.2.toNat
  let pr := st pr planeCrtcW dstSize.1
  let pr := st pr planeCrtcH dstSize.2
  { p with props := pr }

/-- Modelled from the spec: set_buffer(b) stages FB_ID (0 for a null
buffer). -/
def setBuffer (p : Plane) (b : Option Buffer) : Plane :=
  { p with props := (PropsOps.setPending p.props planeFbId ((b.map Buffer.bufferId).getD 0)).2 }

/-- Modelled from the spec: set_transformation(t) writes the rotation
property if available — fails if the combination is not in the enum map. -/
def setTransformation (p : Plane) (t : Nat) : Bool × Plane :=
  let r := PropsOps.setEnum p.props planeRotation t
  (r.1, { p with props := r.2 })

/-- Modelled from the spec: the plane's transformation — the pending value
of the rotation property, Rotate0 when the property is absent. -/
def transformation (p : Plane) : Nat :=
  match PropsOps.cellAt p.props planeRotation with
  | some cell => cell.pending
  | none => rotate0

/-- Modelled from the spec: needs_modeset — the CRTC_ID link has
pending ≠ current. -/
def needsModeset (p : Plane) : Bool :=
  PropsOps.needsCommitAt p.props planeCrtcId

def commitPending (p : Plane) : Plane := { p with props := PropsOps.commitPending p.props }
def rollbackPending (p : Plane) : Plane := { p with props := PropsOps.rollbackPending p.props }
def commit (p : Plane) : Plane := { p with props := PropsOps.commit p.props }

def setNext (p : Plane) (b : Option Buffer) : Plane := { p with next := b }

/-- DrmPlane::flipBuffer: current ← next on the buffer slot. -/
def flipBuffer (p : Plane) : Plane := { p with current := p.next, next := none }

end Plane

/-! ## Pipeline state, GPU and kernel environment -/

/-- DrmPipeline (drm_pipeline.h:33-152): parallel connector/crtc/plane
arrays (index i = the i-th tile), the primary buffer and the rollback
buffer, activity flags, cursor state, and the flags of the last commit. -/
structure Pipeline where
  connectors : List Connector
  crtcs : List Crtc
  primaryPlanes : List Plane
  primaryBuffer : Option Buffer
  oldTestBuffer : Option Buffer
  active : Bool
  legacyNeedsModeset : Bool
  cursorPos : Int × Int
  cursorHotspot : Int × Int
  cursorBuffer : Option Buffer
  cursorDirtyBo : Bool
  cursorDirtyPos : Bool
  lastFlags : Nat
  hasOutput : Bool
deriving Repr, DecidableEq

instance : Inhabited Pipeline :=
  ⟨⟨[], [], [], none, none, true, true, (0, 0), (0, 0), none, true, true, 0, false⟩⟩

/-- The pipeline at position i of a GPU's pipeline list (the C++ code
works through pointers; the embedding addresses the list by index). -/
def pipeAt (ps : List Pipeline) (i : Nat) : Pipeline :=
  ps.getD i default

/-- The GPU-level capability bits the pipeline consults. -/
structure Gpu where
  atomicModeSetting : Bool
  useEglStreams : Bool
  eglBackend : Bool
  isPrimaryGpu : Bool
  gbmDevice : Bool
deriving Repr, DecidableEq

/-- The environment: the GPU capabilities, the buffers the backend / GBM /
dumb allocation would produce, and the kernel's answer to each ioctl.
`commitOk` is indexed by the running count of atomic-commit ioctls, so the
kernel may accept one request and reject another. -/
structure Env where
  gpu : Gpu
  haveGbm : Bool
  renderTestFrame : Option Buffer
  gbmBo : Option Buffer
  dumbBuf : Buffer
  atomicAllocOk : Bool
  addPropertyOk : Bool
  commitOk : Nat → Bool
  setCrtcOk : Bool
  pageFlipOk : Bool
  moveCursorOk : Bool
  setPropOk : Bool
  kernelValue : Nat → Nat

/-- The kernel calls the engine issues, recorded for counting. -/
inductive Ioctl where
  | atomicCommit (flags : Nat)
  | pageFlip (fb : Nat)
  | setCrtc (fb : Nat)
  | moveCursor (x y : Int)
  | setCursor2
  | setCursor
  | objectSetProperty (propId value : Nat)
deriving Repr, DecidableEq

/-- `m_gpu->useEglStreams() && m_gpu->eglBackend() != nullptr && m_gpu ==
m_gpu->platform()->primaryGpu()` (drm_pipeline.cpp:94 and :200). -/
def usesEglStreams (g : Gpu) : Bool :=
  g.useEglStreams && g.eglBackend && g.isPrimaryGpu

namespace Pipeline

/-- DrmPipeline::transformation (drm_pipeline.cpp:556-559). -/
def transformation (p : Pipeline) : Nat :=
  match p.primaryPlanes.head? with
  | some pl => pl.transformation
  | none => rotate0

/-- DrmPipeline::modeIndex (drm_pipeline.cpp:695-698). -/
def modeIndex (p : Pipeline) : Nat :=
  (p.connectors.headD ⟨[], [], 0, 0, TilingInfo.untiled⟩).modeIndex

/-- The first connector ([]-access `m_connectors.first()`). -/
def firstConnector (p : Pipeline) : Connector :=
  p.connectors.headD ⟨[], [], 0, 0, TilingInfo.untiled⟩

/-- DrmPipeline::rotated (drm_pipeline.cpp:539-545): transpose when the
transformation holds Rotate90 or Rotate270. -/
def rotated (p : Pipeline) (size : Nat × Nat) : Nat × Nat :=
  if p.transformation &&& (rotate90 ||| rotate270) ≠ 0 then (size.2, size.1) else size

/-- DrmPipeline::sourceSize (drm_pipeline.cpp:547-554). -/
def sourceSize (p : Pipeline) : Nat × Nat :=
  let s := p.firstConnector.totalModeSize p.modeIndex
  if p.transformation &&& (rotate90 ||| rotate270) ≠ 0 then (s.2, s.1) else s

/-- `std::any_of(m_allObjects…, needsCommit)` (drm_pipeline.cpp:97):
some cell of some object has pending ≠ current. -/
def anyObjNeedsCommit (p : Pipeline) : Bool :=
  p.connectors.any (fun c => PropsOps.anyNeedsCommit c.props)
    || p.crtcs.any (fun c => PropsOps.anyNeedsCommit c.props)
    || p.primaryPlanes.any (fun c => PropsOps.anyNeedsCommit c.props)

/-- `std::any_of(m_allObjects…, needsModeset)` (drm_pipeline.cpp:204). -/
def anyObjNeedsModeset (p : Pipeline) : Bool :=
  p.connectors.any Connector.needsModeset
    || p.crtcs.any Crtc.needsModeset
    || p.primaryPlanes.any Plane.needsModeset

/-- Every cell of every object of the pipeline has pending = current. -/
def allCellsClean (p : Pipeline) : Bool :=
  p.connectors.all (fun c => PropsOps.clean c.props)
    && p.crtcs.all (fun c => PropsOps.clean c.props)
    && p.primaryPlanes.all (fun c => PropsOps.clean c.props)

/-- The (current, next) cores of all cells plus the committed mode
indices: the part of the shadow state a failed commit must leave alone. -/
def cores (p : Pipeline) : List (List (Option (Nat × Nat))) × List Nat :=
  (p.connectors.map (fun c => PropsOps.cores c.props)
    ++ p.crtcs.map (fun c => PropsOps.cores c.props)
    ++ p.primaryPlanes.map (fun c => PropsOps.cores c.props),
   p.connectors.map Connector.modeIdx)

/-- The failed path of commitPipelines applied to one pipeline
(drm_pipeline.cpp:137-150): restore primary_buffer from old_test_buffer
when one was kept, clear old_test_buffer, roll back every object. -/
def rollbackPipeline (p : Pipeline) : Pipeline :=
  let p :=
    if p.oldTestBuffer.isSome then
      { p with primaryBuffer := p.oldTestBuffer, oldTestBuffer := none }
    else p
  { p with
    connectors := p.connectors.map Connector.rollbackPending,
    crtcs := p.crtcs.map Crtc.rollbackPending,
    primaryPlanes := p.primaryPlanes.map Plane.rollbackPending }

/-- The success path of commitPipelines applied to one pipeline
(drm_pipeline.cpp:172-185): clear old_test_buffer, commit_pending on every
object, and for a real commit advance the planes' next-buffer slot and
commit every object. -/
def commitPipelineState (p : Pipeline) (isTest : Bool) : Pipeline :=
  let p := { p with oldTestBuffer := none }
  let p := { p with
    connectors := p.connectors.map Connector.commitPending,
    crtcs := p.crtcs.map Crtc.commitPending,
    primaryPlanes := p.primaryPlanes.map Plane.commitPending }
  if isTest then p
  else
    let p := { p with primaryPlanes := p.primaryPlanes.map (fun pl => Plane.setNext pl p.primaryBuffer) }
    { p with
      connectors := p.connectors.map Connector.commit,
      crtcs := p.crtcs.map Crtc.commit,
      primaryPlanes := p.primaryPlanes.map Plane.commit }

end Pipeline

/-! ## checkTestBuffer and populateAtomicValues -/

/-- DrmPipeline::checkTestBuffer (drm_pipeline.cpp:292-332): keep a
matching primary buffer or an inactive pipeline as-is; otherwise climb the
ladder (backend test frame when an EGL backend and an output exist, else a
GBM bo, else a dumb buffer), saving the previous primary buffer as
old_test_buffer when the new one is adopted. -/
def checkTestBuffer (env : Env) (p : Pipeline) : Bool × Pipeline :=
  match p.primaryBuffer with
  | some b =>
    if (b.width, b.height) = p.sourceSize then (true, p)
    else checkTestBufferLadder env p
  | none => checkTestBufferLadder env p
where
  adopt (p : Pipeline) (b : Buffer) : Bool × Pipeline :=
    if b.bufferId ≠ 0 then
      (true, { p with oldTestBuffer := p.primaryBuffer, primaryBuffer := some b })
    else (false, p)
  checkTestBufferLadder (env : Env) (p : Pipeline) : Bool × Pipeline :=
    if !p.active then (true, p)
    else if env.haveGbm then
      if env.gpu.eglBackend && p.hasOutput then
        match env.renderTestFrame with
        | some b => adopt p b
        | none => (false, p)
      else if env.gpu.eglBackend && env.gpu.gbmDevice then
        match env.gbmBo with
        | some b => adopt p b
        | none => (false, p)
      else adopt p env.dumbBuf
    else adopt p env.dumbBuf

/-- Modelled from the spec: atomic_populate over one object's cells —
serializing succeeds trivially when nothing needs committing, otherwise
the kernel's answer to drmModeAtomicAddProperty decides. -/
def atomicPopulateOk (env : Env) (props : Props) : Bool :=
  (PropsOps.atomicEntries props).isEmpty || env.addPropertyOk

/-- The flag decision of DrmPipeline::populateAtomicValues
(drm_pipeline.cpp:200-209): add PAGE_FLIP_EVENT when active and not
EGLStream-on-primary; add ALLOW_MODESET when some object needs a modeset,
else NONBLOCK. -/
def populateFlags (env : Env) (p : Pipeline) (flags : Nat) : Nat :=
  let useEgl := usesEglStreams env.gpu
  let flags := if !useEgl && p.active then flags ||| PAGE_FLIP_EVENT else flags
  if p.anyObjNeedsModeset then flags ||| ATOMIC_ALLOW_MODESET
  else flags ||| ATOMIC_NONBLOCK

/-- The per-tile plane staging loop of populateAtomicValues
(drm_pipeline.cpp:212-216): source rect at the connector's tile position
(rotated), destination at the origin, the primary buffer — or none when
inactive — as FB_ID. -/
def stagePlanesFor (p : Pipeline) : List Plane :=
  (p.connectors.zip p.primaryPlanes).map fun (cp : Connector × Plane) =>
    let modeSize := (cp.1.currentMode.w, cp.1.currentMode.h)
    let pl : Plane := Plane.set cp.2 cp.1.tilePos (p.rotated modeSize) (0, 0) modeSize
    Plane.setBuffer pl (if p.active then p.primaryBuffer else none)

/-- DrmPipeline::populateAtomicValues (drm_pipeline.cpp:198-223): decide
the flag bits, remember them in lastFlags, stage each tile's plane, then
serialize every object's pending values into the request. -/
def populateAtomicValues (env : Env) (p : Pipeline) (flags : Nat) : Bool × Pipeline × Nat :=
  let flags := populateFlags env p flags
  let p := { p with lastFlags := flags }
  let p := { p with primaryPlanes := stagePlanesFor p ++ p.primaryPlanes.drop p.connectors.length }
  let ok := p.connectors.all (fun c => atomicPopulateOk env c.props)
    && p.crtcs.all (fun c => atomicPopulateOk env c.props)
    && p.primaryPlanes.all (fun c => atomicPopulateOk env c.props)
  (ok, p, flags)

/-- The per-pipeline loop of the atomic commitPipelines
(drm_pipeline.cpp:151-160): checkTestBuffer then populateAtomicValues for
each pipeline in order, stopping at the first failure and keeping the
partial state changes made so far. -/
def processAll (env : Env) : List Pipeline → Nat → Bool × List Pipeline × Nat
  | [], flags => (true, [], flags)
  | p :: rest, flags =>
    let r1 := checkTestBuffer env p
    if !r1.1 then (false, r1.2 :: rest, flags)
    else
      let r2 := populateAtomicValues env r1.2 flags
      if !r2.1 then (false, r2.2.1 :: rest, r2.2.2)
      else
        let r3 := processAll env rest r2.2.2
        (r3.1, r2.2.1 :: r3.2.1, r3.2.2)

/-- The 32-bit mask `~DRM_MODE_PAGE_FLIP_EVENT` used to strip the
pageflip-event bit from a flags word (drm_pipeline.cpp:162 and :164). -/
def maskWithoutPFE : Nat := 0xFFFFFFFE

/-- DrmPipeline::CommitMode (drm_pipeline.h:113-117). -/
inductive CommitMode where
  | Test
  | Commit
  | CommitWithPageflipEvent
deriving Repr, DecidableEq

/-- The atomic branch of DrmPipeline::commitPipelines
(drm_pipeline.cpp:130-187).  `k` counts the atomic-commit ioctls issued so
far; each call consults `env.commitOk k` and advances the counter.  The
result carries the success bit, the updated pipelines, the new counter and
the trace of issued ioctls. -/
def commitPipelinesAtomic (env : Env) (ps : List Pipeline) (mode : CommitMode) (k : Nat) :
    Bool × List Pipeline × Nat × List Ioctl :=
  if !env.atomicAllocOk then (false, ps, k, []) else
  let pr := processAll env ps 0
  if !pr.1 then (false, pr.2.1.map Pipeline.rollbackPipeline, k, []) else
  let ps₁ := pr.2.1
  let flags := pr.2.2
  let flags := if mode ≠ CommitMode.CommitWithPageflipEvent then flags &&& maskWithoutPFE else flags
  let testFlags := (flags &&& maskWithoutPFE) ||| ATOMIC_TEST_ONLY
  let tr₁ := [Ioctl.atomicCommit testFlags]
  if !env.commitOk k then (false, ps₁.map Pipeline.rollbackPipeline, k + 1, tr₁) else
  if mode ≠ CommitMode.Test then
    let tr₂ := tr₁ ++ [Ioctl.atomicCommit flags]
    if !env.commitOk (k + 1) then (false, ps₁.map Pipeline.rollbackPipeline, k + 2, tr₂)
    else (true, ps₁.map (fun p => p.commitPipelineState false), k + 2, tr₂)
  else (true, ps₁.map (fun p => p.commitPipelineState true), k + 1, tr₁)

/-! ## Legacy paths -/

/-- Modelled from the spec: DrmBuffer::needsModeChange — a legacy pageflip
is refused across pixel-format changes, so a modeset is forced when the
formats differ (or when there is no buffer to compare). -/
def needsModeChange (cur : Buffer) (prim : Option Buffer) : Bool :=
  match prim with
  | some b => cur.format ≠ b.format
  | none => true

/-- DrmPipeline::currentBuffer (drm_pipeline.cpp:591-594). -/
def currentBufferOf (p : Pipeline) : Option Buffer :=
  match p.primaryPlanes.head? with
  | some pl => pl.current
  | none =>
    match p.crtcs.head? with
    | some c => c.current
    | none => none

/-- The legacy branch of DrmPipeline::modeset (drm_pipeline.cpp:267-288):
remember the old mode index, stage the new one, require a test buffer and
a successful drmModeSetCrtc; on failure restore the mode index and the
primary buffer; on success clear old_test_buffer and legacy_needs_modeset
and keep the buffer alive on the CRTC. -/
def modesetLegacy (env : Env) (p : Pipeline) (wantedMode : Nat) :
    Bool × Pipeline × List Ioctl :=
  let conn := p.firstConnector
  let oldModeIndex := conn.modeIndex
  let conn₁ := conn.setModeIndex wantedMode
  let p₁ := { p with connectors := p.connectors.set 0 conn₁ }
  let r := checkTestBuffer env p₁
  let trace :=
    if r.1 then [Ioctl.setCrtc (((r.2.primaryBuffer).map Buffer.bufferId).getD 0)] else []
  if !r.1 || !env.setCrtcOk then
    let p₂ := r.2
    let p₃ := { p₂ with
      connectors := p₂.connectors.set 0 ((p₂.firstConnector).setModeIndex oldModeIndex),
      primaryBuffer := p₂.oldTestBuffer }
    (false, p₃, trace)
  else
    let p₂ := { r.2 with oldTestBuffer := none, legacyNeedsModeset := false }
    let crtc := p₂.crtcs.headD ⟨[], none, none⟩
    let crtc₁ :=
      if crtc.current.isSome then crtc.setNext p₂.primaryBuffer
      else crtc.setCurrent p₂.primaryBuffer
    (true, { p₂ with crtcs := p₂.crtcs.set 0 crtc₁ }, trace)

/-- The legacy branch of DrmPipeline::commitPipelines
(drm_pipeline.cpp:188-195): force a modeset of mode 0 on every pipeline
still flagged legacy_needs_modeset, stopping at the first failure. -/
def commitPipelinesLegacy (env : Env) : List Pipeline → Bool × List Pipeline × List Ioctl
  | [] => (true, [], [])
  | p :: rest =>
    if p.legacyNeedsModeset then
      let r := modesetLegacy env p 0
      if !r.1 then (false, r.2.1 :: rest, r.2.2)
      else
        let rr := commitPipelinesLegacy env rest
        (rr.1, r.2.1 :: rr.2.1, r.2.2 ++ rr.2.2)
    else
      let rr := commitPipelinesLegacy env rest
      (rr.1, p :: rr.2.1, rr.2.2)

/-- DrmPipeline::commitPipelines (drm_pipeline.cpp:126-196): dispatch on
the GPU's atomic-modesetting capability. -/
def commitPipelines (env : Env) (ps : List Pipeline) (mode : CommitMode) (k : Nat) :
    Bool × List Pipeline × Nat × List Ioctl :=
  if env.gpu.atomicModeSetting then commitPipelinesAtomic env ps mode k
  else
    let r := commitPipelinesLegacy env ps
    (r.1, r.2.1, k, r.2.2)

/-! ## test, modeset, present -/

/-- DrmPipeline::test (drm_pipeline.cpp:77-89): in atomic mode,
checkTestBuffer on self and a Test-mode group commit over the GPU's
pipelines; in legacy mode, unconditionally true with no kernel call.
`i` is the position of `self` inside `ps`. -/
def testPipelines (env : Env) (ps : List Pipeline) (i : Nat) (k : Nat) :
    Bool × List Pipeline × Nat × List Ioctl :=
  if env.gpu.atomicModeSetting then
    let r := checkTestBuffer env (pipeAt ps i)
    let ps₁ := ps.set i r.2
    if !r.1 then (false, ps₁, k, [])
    else commitPipelines env ps₁ CommitMode.Test k
  else (true, ps, k, [])

/-- The `setValues` closure of the atomic DrmPipeline::modeset
(drm_pipeline.cpp:242-252): for every tile, stage the wanted mode index on
the connector, the mode blob on the CRTC, and re-apply overscan for the
new mode size. -/
def modesetSetValues (ps : List Pipeline) (i : Nat) (wantedMode : Nat) : List Pipeline :=
  let self := pipeAt ps i
  let pairs := (self.connectors.zip self.crtcs).map fun (cc : Connector × Crtc) =>
    let conn := cc.1.setModeIndex wantedMode
    let mode := conn.currentMode
    let crtc := (cc.2.setPendingBlob crtcModeId (some mode.blobVal)).2
    let conn :=
      if conn.hasOverscan then conn.setOverscan conn.overscan (mode.w, mode.h) else conn
    (conn, crtc)
  let self := { self with
    connectors := pairs.map Prod.fst ++ self.connectors.drop self.crtcs.length,
    crtcs := pairs.map Prod.snd ++ self.crtcs.drop self.connectors.length }
  ps.set i self

/-- The plane loop of DrmPipeline::setPendingTransformation
(drm_pipeline.cpp:477-482): stage the rotation on each primary plane in
order, stopping at the first plane that rejects the combination. -/
def stageTransformation (t : Nat) : List Plane → Bool × List Plane
  | [] => (true, [])
  | pl :: rest =>
    let r := pl.setTransformation t
    if !r.1 then (false, r.2 :: rest)
    else
      let rr := stageTransformation t rest
      (rr.1, r.2 :: rr.2)

/-- DrmPipeline::setPendingTransformation (drm_pipeline.cpp:468-490):
no-op success when the transformation already matches; failure in legacy
mode; otherwise stage the rotation on every primary plane, rolling the
planes back if one of them rejects the combination. -/
def setPendingTransformation (env : Env) (p : Pipeline) (t : Nat) : Bool × Pipeline :=
  if p.transformation == t then (true, p)
  else if !env.gpu.atomicModeSetting then (false, p)
  else
    let staged := stageTransformation t p.primaryPlanes
    if staged.1 then (true, { p with primaryPlanes := staged.2 })
    else
      (false, { p with primaryPlanes := (staged.2).map Plane.rollbackPending })

/-- The atomic branch of DrmPipeline::modeset (drm_pipeline.cpp:239-266):
stage the wanted mode and test; when the test fails and the transformation
is not Rotate0 and soft rotation can be staged, stage the values again and
retest. -/
def modesetAtomic (env : Env) (ps : List Pipeline) (i : Nat) (wantedMode : Nat) (k : Nat) :
    Bool × List Pipeline × Nat × List Ioctl :=
  let ps₁ := modesetSetValues ps i wantedMode
  let r₁ := testPipelines env ps₁ i k
  if r₁.1 then (true, r₁.2.1, r₁.2.2.1, r₁.2.2.2)
  else
    let ps₂ := r₁.2.1
    let self := pipeAt ps₂ i
    if self.transformation != rotate0 then
      let rt := setPendingTransformation env self rotate0
      if rt.1 then
        let ps₃ := modesetSetValues (ps₂.set i rt.2) i wantedMode
        let r₂ := testPipelines env ps₃ i r₁.2.2.1
        (r₂.1, r₂.2.1, r₂.2.2.1, r₁.2.2.2 ++ r₂.2.2.2)
      else (false, ps₂.set i rt.2, r₁.2.2.1, r₁.2.2.2)
    else (false, ps₂, r₁.2.2.1, r₁.2.2.2)

/-- DrmPipeline::modeset (drm_pipeline.cpp:239-290): atomic or legacy
branch; the legacy branch only touches `self`. -/
def modeset (env : Env) (ps : List Pipeline) (i : Nat) (wantedMode : Nat) (k : Nat) :
    Bool × List Pipeline × Nat × List Ioctl :=
  if env.gpu.atomicModeSetting then modesetAtomic env ps i wantedMode k
  else
    let r := modesetLegacy env (pipeAt ps i) wantedMode
    (r.1, ps.set i r.2.1, k, r.2.2)

/-- DrmPipeline::presentLegacy (drm_pipeline.cpp:225-237): force a modeset
when the scanned-out buffer is missing or format-incompatible, then store
the primary buffer in the CRTC's next slot and issue drmModePageFlip. -/
def presentLegacy (env : Env) (ps : List Pipeline) (i : Nat) (k : Nat) :
    Bool × List Pipeline × Nat × List Ioctl :=
  let self := pipeAt ps i
  let needsSet :=
    match currentBufferOf self with
    | none => true
    | some cur => needsModeChange cur self.primaryBuffer
  let afterSet :=
    if needsSet then
      let r := modeset env ps i self.modeIndex k
      (r.1, r.2.1, r.2.2.1, r.2.2.2)
    else (true, ps, k, ([] : List Ioctl))
  if !afterSet.1 then (false, afterSet.2.1, afterSet.2.2.1, afterSet.2.2.2)
  else
    let ps₁ := afterSet.2.1
    let self₁ := pipeAt ps₁ i
    let self₂ := { self₁ with lastFlags := PAGE_FLIP_EVENT }
    let crtc := self₂.crtcs.headD ⟨[], none, none⟩
    let self₃ := { self₂ with crtcs := self₂.crtcs.set 0 (crtc.setNext self₂.primaryBuffer) }
    let fb := ((self₃.primaryBuffer).map Buffer.bufferId).getD 0
    let trace := afterSet.2.2.2 ++ [Ioctl.pageFlip fb]
    (env.pageFlipOk, ps₁.set i self₃, afterSet.2.2.1, trace)

/-- DrmPipeline::updateProperties (drm_pipeline.cpp:617-626): every cell
re-reads its current value from the kernel (modelled by env.kernelValue
over the property id), and the cursor dirty flags are raised. -/
def updatePropertiesPipeline (env : Env) (p : Pipeline) : Pipeline :=
  let upd := fun (pr : Props) =>
    pr.map (Option.map fun c => c.setCurrent (env.kernelValue c.propId))
  { p with
    connectors := p.connectors.map (fun c => { c with props := upd c.props }),
    crtcs := p.crtcs.map (fun c => { c with props := upd c.props }),
    primaryPlanes := p.primaryPlanes.map (fun c => { c with props := upd c.props }),
    cursorDirtyBo := true,
    cursorDirtyPos := true }

/-- DrmPipeline::atomicCommit (drm_pipeline.cpp:121-124): a
CommitWithPageflipEvent group commit over just this pipeline. -/
def atomicCommitSelf (env : Env) (p : Pipeline) (k : Nat) :
    Bool × Pipeline × Nat × List Ioctl :=
  let r := commitPipelinesAtomic env [p] CommitMode.CommitWithPageflipEvent k
  (r.1, r.2.1.headD p, r.2.2.1, r.2.2.2)

/-- DrmPipeline::present (drm_pipeline.cpp:91-119): store the buffer as
primary; bypass entirely when EGLStreams on the primary GPU carries the
flip and no object needs a commit; otherwise atomic commit with one
update-and-retry, or the legacy present. -/
def present (env : Env) (ps : List Pipeline) (i : Nat) (buffer : Buffer) (k : Nat) :
    Bool × List Pipeline × Nat × List Ioctl :=
  let self := { pipeAt ps i with primaryBuffer := some buffer }
  let ps₀ := ps.set i self
  if usesEglStreams env.gpu && !self.anyObjNeedsCommit then (true, ps₀, k, [])
  else if env.gpu.atomicModeSetting then
    let r₁ := atomicCommitSelf env self k
    if r₁.1 then (true, ps₀.set i r₁.2.1, r₁.2.2.1, r₁.2.2.2)
    else
      let self₂ := updatePropertiesPipeline env r₁.2.1
      let r₂ := atomicCommitSelf env self₂ r₁.2.2.1
      (r₂.1, ps₀.set i r₂.2.1, r₂.2.2.1, r₁.2.2.2 ++ r₂.2.2.2)
  else presentLegacy env ps₀ i k

/-! ## Cursor, overscan, sync mode, transformation, completeness -/

/-- DrmPipeline::moveCursor (drm_pipeline.cpp:357-370), translated
verbatim: skip when the position is not dirty and already equals `pos`;
otherwise issue drmModeMoveCursor per CRTC — the stored position is
assigned only in the failure branch, and the dirty flag is cleared only
when every ioctl succeeded. -/
def moveCursor (env : Env) (p : Pipeline) (pos : Int × Int) : Bool × Pipeline × List Ioctl :=
  if !p.cursorDirtyPos && p.cursorPos == pos then (true, p, [])
  else
    match p.crtcs with
    | [] => (true, { p with cursorDirtyPos := false }, [])
    | _ :: _ =>
      if env.moveCursorOk then
        (true, { p with cursorDirtyPos := false },
         p.crtcs.map fun _ => Ioctl.moveCursor pos.1 pos.2)
      else
        (false, { p with cursorPos := pos }, [Ioctl.moveCursor pos.1 pos.2])

/-- DrmPipeline::vrrCapable (drm_pipeline.cpp:723-726). -/
def vrrCapablePipeline (p : Pipeline) : Bool :=
  p.connectors.all Connector.vrrCapable

/-- DrmPipeline::hasOverscan (drm_pipeline.cpp:728-731). -/
def hasOverscanPipeline (p : Pipeline) : Bool :=
  if p.connectors.length > 1 then false else p.firstConnector.hasOverscan

/-- DrmPipeline::setOverscan (drm_pipeline.cpp:518-525): reject a
percentage above 100, a multi-connector pipeline, or a non-zero value
without the property; otherwise stage the connector's overscan and test. -/
def setOverscanPipeline (env : Env) (ps : List Pipeline) (i : Nat) (percent : Nat) (k : Nat) :
    Bool × List Pipeline × Nat × List Ioctl :=
  let self := pipeAt ps i
  if percent > 100 || self.connectors.length > 1
      || (percent ≠ 0 && !self.firstConnector.hasOverscan) then
    (false, ps, k, [])
  else
    let conn := self.firstConnector
    let conn₁ := conn.setOverscan percent (conn.currentMode.w, conn.currentMode.h)
    let ps₁ := ps.set i { self with connectors := self.connectors.set 0 conn₁ }
    testPipelines env ps₁ i k

/-- RenderLoopPrivate::SyncMode. -/
inductive SyncMode where
  | Fixed
  | Adaptive
deriving Repr, DecidableEq

/-- The CRTC loop of the atomic DrmPipeline::setSyncMode
(drm_pipeline.cpp:499-510): success turns false at the first CRTC lacking
the VrrEnabled property (stopping there), and every CRTC whose pending
value differs from the target is staged and flags the need for a test. -/
def stageVrr (target : Nat) : List Crtc → Bool × Bool × List Crtc
  | [] => (true, false, [])
  | c :: rest =>
    match PropsOps.cellAt c.props crtcVrrEnabled with
    | none => (false, false, c :: rest)
    | some cell =>
      let rr := stageVrr target rest
      if cell.pending ≠ target then
        (rr.1, true,
         { c with props := (PropsOps.setPending c.props crtcVrrEnabled target).2 } :: rr.2.2)
      else (rr.1, rr.2.1, c :: rr.2.2)

/-- DrmPipeline::setSyncMode (drm_pipeline.cpp:492-516): only Fixed is
accepted when some connector is not VRR-capable; the atomic branch stages
VrrEnabled on every CRTC and tests only when something changed; the legacy
branch writes the first CRTC's property directly with no test. -/
def setSyncMode (env : Env) (ps : List Pipeline) (i : Nat) (mode : SyncMode) (k : Nat) :
    Bool × List Pipeline × Nat × List Ioctl :=
  let self := pipeAt ps i
  if !vrrCapablePipeline self then (mode == SyncMode.Fixed, ps, k, [])
  else
    let vrr : Nat := if mode = SyncMode.Adaptive then 1 else 0
    if env.gpu.atomicModeSetting then
      let st := stageVrr vrr self.crtcs
      let ps₁ := ps.set i { self with crtcs := st.2.2 }
      if !st.1 then (false, ps₁, k, [])
      else if !st.2.1 then (true, ps₁, k, [])
      else testPipelines env ps₁ i k
    else
      match PropsOps.cellAt (self.crtcs.headD ⟨[], none, none⟩).props crtcVrrEnabled with
      | none => (false, ps, k, [])
      | some cell =>
        (env.setPropOk, ps, k, [Ioctl.objectSetProperty cell.propId vrr])

/-- DrmPipeline::setTransformation (drm_pipeline.cpp:463-466). -/
def setTransformationPipeline (env : Env) (ps : List Pipeline) (i : Nat) (t : Nat) (k : Nat) :
    Bool × List Pipeline × Nat × List Ioctl :=
  let r := setPendingTransformation env (pipeAt ps i) t
  if !r.1 then (false, ps.set i r.2, k, [])
  else testPipelines env (ps.set i r.2) i k

/-- The coverage test of the inner loop of DrmPipeline::isComplete
(drm_pipeline.cpp:678-679): the connector's tiling info covers grid cell
(x, y). -/
def coversCell (info : TilingInfo) (x y : Int) : Bool :=
  x ≥ info.loc_x && x ≤ info.loc_x + info.tile_width
    && y ≥ info.loc_y && y ≤ info.loc_y + info.tile_height

/-- DrmPipeline::isComplete (drm_pipeline.cpp:663-693): untiled pipelines
and EGLStream tiled pipelines are complete; otherwise every cell of the
tile grid must be covered by some member connector. -/
def isComplete (env : Env) (p : Pipeline) : Bool :=
  if p.firstConnector.isTiled then
    if env.gpu.useEglStreams then true
    else
      let width := p.firstConnector.tilingInfo.num_tiles_x
      let height := p.firstConnector.tilingInfo.num_tiles_y
      (List.range width.toNat).all fun x =>
        (List.range height.toNat).all fun y =>
          p.connectors.any fun conn => coversCell conn.tilingInfo (x : Int) (y : Int)
  else true

/-! ## General helper lemmas -/

theorem list_set_same {α : Type} :
    ∀ (l : List α) (n : Nat) (a : α), l.get? n = some a → l.set n a = l
  | [], n, a, h => by cases h
  | x :: xs, 0, a, h => by
    simp only [List.get?] at h
    cases h
    rfl
  | x :: xs, n + 1, a, h => by
    simp only [List.get?] at h
    simp only [List.set]
    rw [list_set_same xs n a h]

theorem cores_setPending (pr : Props) (idx v : Nat) :
    PropsOps.cores (PropsOps.setPending pr idx v).2 = PropsOps.cores pr := by
  unfold PropsOps.setPending
  cases hg : pr.get? idx with
  | none => rfl
  | some oc =>
    cases oc with
    | none => rfl
    | some c =>
      simp only
      unfold PropsOps.cores
      rw [List.map_set]
      apply list_set_same
      rw [List.get?_map, hg]
      rfl

theorem cellAt_setPending_ne (pr : Props) (idx v j : Nat) (h : idx ≠ j) :
    PropsOps.cellAt (PropsOps.setPending pr idx v).2 j = PropsOps.cellAt pr j := by
  unfold PropsOps.setPending PropsOps.cellAt
  cases hg : pr.get? idx with
  | none => rfl
  | some oc =>
    cases oc with
    | none => rfl
    | some c => rw [List.get?_set_ne _ pr h]

theorem clean_rollback (pr : Props) :
    PropsOps.clean (PropsOps.rollbackPending pr) = true := by
  unfold PropsOps.clean PropsOps.rollbackPending
  rw [List.all_eq_true]
  intro oc hm
  rw [List.mem_map] at hm
  obtain ⟨x, _, rfl⟩ := hm
  cases x with
  | none => rfl
  | some c => simp [Cell.rollbackPending]

theorem cores_rollback (pr : Props) :
    PropsOps.cores (PropsOps.rollbackPending pr) = PropsOps.cores pr := by
  unfold PropsOps.cores PropsOps.rollbackPending
  rw [List.map_map]
  congr 1
  funext oc
  cases oc with
  | none => rfl
  | some c => rfl

theorem anyNeedsCommit_eq_not_clean (pr : Props) :
    PropsOps.anyNeedsCommit pr = !PropsOps.clean pr := by
  unfold PropsOps.anyNeedsCommit PropsOps.clean
  induction pr with
  | nil => rfl
  | cons oc rest ih =>
    cases oc with
    | none => simpa using ih
    | some c =>
      simp only [List.any_cons, List.all_cons, ih, Bool.not_and]
      cases hc : c.needsCommit <;>
        simp_all [Cell.needsCommit, bne, BEq.beq, decide_eq_true_eq]

/-! ## Claim C2 — immutable cells and write operations -/

/-- A concrete immutable property cell (pending = next = current = 0,
enum 1 ↦ 5). -/
def sampleImmutableCell : Cell :=
  ⟨7, 0, 0, 0, true, false, [(1, 5)]⟩

/-- C2 counterexample: on an immutable cell, DrmObject::setPending returns
true (not false) and Property::setPending stores the value, breaking
pending == current; Property::setEnum likewise succeeds for a mapped key.
This refutes the claim that every write to an immutable cell is rejected
silently. -/
theorem C2_immutable_writes_counterexample :
    (PropsOps.setPending [some sampleImmutableCell] 0 42).1 = true
    ∧ (Cell.setPending sampleImmutableCell 42).pending ≠ sampleImmutableCell.current
    ∧ (Cell.setEnum sampleImmutableCell 1).1 = true
    ∧ ((Cell.setEnum sampleImmutableCell 1).2).pending ≠ sampleImmutableCell.current := by
  decide

/-- C2 (amended): the write operations do not consult the immutable flag:
Property::setPending always stores the value, DrmObject::setPending
returns true exactly when the cell exists, and Property::setEnum succeeds
exactly when the enum key is mapped; immutability only excludes the cell
from atomic serialization.  So `immutable ⇒ pending == current` is not an
invariant maintained by the write operations. -/
theorem C2_immutable_writes_amended (c : Cell) (v keyv : Nat) (props : Props) (idx : Nat)
    (hcell : (PropsOps.cellAt props idx).isSome = true)
    (him : c.immutable = true) :
    (Cell.setPending c v).pending = v
    ∧ (PropsOps.setPending props idx v).1 = true
    ∧ (Cell.setEnum c keyv).1 = (c.enumMap.lookup keyv).isSome
    ∧ PropsOps.atomicEntries [some c] = [] := by
  refine ⟨rfl, ?_, ?_, ?_⟩
  · unfold PropsOps.cellAt at hcell
    unfold PropsOps.setPending
    cases hg : props.get? idx with
    | none => rw [hg] at hcell; cases hcell
    | some oc =>
      cases oc with
      | none => rw [hg] at hcell; cases hcell
      | some cc => simp only
  · unfold Cell.setEnum
    cases hl : c.enumMap.lookup keyv <;> simp
  · unfold PropsOps.atomicEntries
    simp [him]

/-- C2 witness. -/
theorem C2_immutable_writes_amended_witness :
    (Cell.setPending sampleImmutableCell 42).pending = 42
    ∧ (PropsOps.setPending [some sampleImmutableCell] 0 42).1 = true
    ∧ (Cell.setEnum sampleImmutableCell 1).1 = ((sampleImmutableCell.enumMap.lookup 1).isSome)
    ∧ PropsOps.atomicEntries [some sampleImmutableCell] = [] :=
  C2_immutable_writes_amended sampleImmutableCell 42 1 [some sampleImmutableCell] 0
    (by decide) (by decide)

/-! ## Claim C4 — flag bits of populateAtomicValues -/

/-- C4: populateAtomicValues adds the PAGE_FLIP_EVENT bit exactly when the
pipeline is active and the backend is not EGLStream-on-primary-GPU, adds
ALLOW_MODESET exactly when some object needs a modeset, and adds NONBLOCK
otherwise (each on top of whatever the incoming flags word already held). -/
theorem C4_populate_flag_bits (env : Env) (p : Pipeline) (flags : Nat) :
    ((populateAtomicValues env p flags).2.2.testBit 0
      = (flags.testBit 0 || (p.active && !usesEglStreams env.gpu)))
    ∧ ((populateAtomicValues env p flags).2.2.testBit 10
      = (flags.testBit 10 || p.anyObjNeedsModeset))
    ∧ ((populateAtomicValues env p flags).2.2.testBit 9
      = (flags.testBit 9 || !p.anyObjNeedsModeset)) := by
  unfold populateAtomicValues populateFlags
  have e1 : Nat.testBit 1 0 = true := by decide
  have e2 : Nat.testBit 1 9 = false := by decide
  have e3 : Nat.testBit 1 10 = false := by decide
  have e4 : Nat.testBit 512 0 = false := by decide
  have e5 : Nat.testBit 512 9 = true := by decide
  have e6 : Nat.testBit 512 10 = false := by decide
  have e7 : Nat.testBit 1024 0 = false := by decide
  have e8 : Nat.testBit 1024 9 = false := by decide
  have e9 : Nat.testBit 1024 10 = true := by decide
  cases he : usesEglStreams env.gpu <;> cases ha : p.active <;>
    cases hm : p.anyObjNeedsModeset <;>
      simp [he, ha, hm, Nat.testBit_lor, PAGE_FLIP_EVENT, ATOMIC_ALLOW_MODESET,
        ATOMIC_NONBLOCK, e1, e2, e3, e4, e5, e6, e7, e8, e9]

/-! ## Claim C10 — test is a no-op success in legacy mode -/

/-- C10: on a GPU in legacy (non-atomic) mode, test(pipelines) returns
true unconditionally, changes no pipeline state, and issues no kernel
call — so test-validated operations get no kernel verification there. -/
theorem C10_test_legacy_trivial (env : Env) (ps : List Pipeline) (i k : Nat)
    (h : env.gpu.atomicModeSetting = false) :
    testPipelines env ps i k = (true, ps, k, []) := by
  unfold testPipelines
  simp [h]

/-- C10 witness. -/
theorem C10_test_legacy_trivial_witness :
    testPipelines
      ⟨⟨false, false, false, false, false⟩, false, none, none, ⟨0, 0, 0, 0⟩,
        true, true, (fun _ => true), true, true, true, true, (fun _ => 0)⟩
      [default] 0 0
    = (true, [default], 0, []) :=
  C10_test_legacy_trivial _ [default] 0 0 rfl

/-! ## Claim C3 — EGLStream bypass in present -/

theorem any_not_clean {α : Type} (f : α → Props) (l : List α) :
    (l.any fun c => PropsOps.anyNeedsCommit (f c)) = !(l.all fun c => PropsOps.clean (f c)) := by
  induction l with
  | nil => rfl
  | cons x xs ih =>
    rw [List.any_cons, List.all_cons, anyNeedsCommit_eq_not_clean, ih, Bool.not_and]

theorem anyObjNeedsCommit_eq (p : Pipeline) : p.anyObjNeedsCommit = !p.allCellsClean := by
  unfold Pipeline.anyObjNeedsCommit Pipeline.allCellsClean
  rw [any_not_clean (fun c : Connector => c.props), any_not_clean (fun c : Crtc => c.props),
    any_not_clean (fun c : Plane => c.props)]
  cases p.connectors.all fun c => PropsOps.clean c.props <;>
    cases p.crtcs.all fun c => PropsOps.clean c.props <;>
      cases p.primaryPlanes.all fun c => PropsOps.clean c.props <;> rfl

theorem anyObjNeedsCommit_primaryBuffer (p : Pipeline) (b : Option Buffer) :
    Pipeline.anyObjNeedsCommit
      ⟨p.connectors, p.crtcs, p.primaryPlanes, b, p.oldTestBuffer, p.active,
        p.legacyNeedsModeset, p.cursorPos, p.cursorHotspot, p.cursorBuffer,
        p.cursorDirtyBo, p.cursorDirtyPos, p.lastFlags, p.hasOutput⟩
      = p.anyObjNeedsCommit := rfl

/-- C3: on an EGLStream primary GPU with an EGL backend, present(buffer)
with no property cell pending ≠ current stores the buffer as the primary
buffer, returns true, and issues zero DRM ioctls. -/
theorem C3_eglstream_bypass (env : Env) (ps : List Pipeline) (i : Nat) (buffer : Buffer) (k : Nat)
    (hegl : usesEglStreams env.gpu = true)
    (hclean : (pipeAt ps i).allCellsClean = true) :
    present env ps i buffer k
      = (true, ps.set i { pipeAt ps i with primaryBuffer := some buffer }, k, []) := by
  unfold present
  simp only [anyObjNeedsCommit_primaryBuffer]
  simp [hegl, anyObjNeedsCommit_eq, hclean]

/-- A clean single-tile pipeline used as a concrete instance: one
connector (one 800×600 mode), one CRTC with an ACTIVE cell, one plane with
a rotation cell staged at Rotate0. -/
def cleanPipe : Pipeline :=
  ⟨[⟨[some ⟨11, 0, 0, 0, false, false, []⟩], [⟨800, 600, 60, 5⟩], 0, 0, TilingInfo.untiled⟩],
   [⟨[some ⟨21, 1, 1, 1, false, false, []⟩, some ⟨22, 9, 9, 9, false, false, []⟩], none, none⟩],
   [⟨[some ⟨31, 0, 0, 0, false, false, []⟩, none, none, none, none, none, none, none, none, none,
      some ⟨32, 1, 1, 1, false, false, [(1, 1), (2, 2)]⟩], none, none⟩],
   none, none, true, true, (0, 0), (0, 0), none, true, true, 0, true⟩

/-- An environment whose GPU is EGLStream-on-primary with an EGL backend. -/
def eglStreamEnv : Env :=
  ⟨⟨true, true, true, true, false⟩, true, some ⟨44, 800, 600, 7⟩, none, ⟨0, 0, 0, 0⟩,
   true, true, (fun _ => true), true, true, true, true, (fun _ => 0)⟩

/-- C3 witness. -/
theorem C3_eglstream_bypass_witness :
    present eglStreamEnv [cleanPipe] 0 ⟨44, 800, 600, 7⟩ 0
      = (true,
          [cleanPipe].set 0
            { pipeAt [cleanPipe] 0 with primaryBuffer := some ⟨44, 800, 600, 7⟩ },
          0, []) :=
  C3_eglstream_bypass eglStreamEnv [cleanPipe] 0 ⟨44, 800, 600, 7⟩ 0 (by decide) (by decide)

/-! ## Claim C9 — isComplete over the tile grid -/

/-- C9: isComplete is true for untiled pipelines and for EGLStream tiled
pipelines, and for a tiled non-EGLStream pipeline it is true exactly when
every cell of the tile grid is covered by some member connector's tiling
info. -/
theorem C9_isComplete_grid (env : Env) (p : Pipeline) :
    (p.firstConnector.isTiled = false → isComplete env p = true)
    ∧ (p.firstConnector.isTiled = true → env.gpu.useEglStreams = true → isComplete env p = true)
    ∧ (p.firstConnector.isTiled = true → env.gpu.useEglStreams = false →
        (isComplete env p = true ↔
          ∀ x y : Int, 0 ≤ x → x < p.firstConnector.tilingInfo.num_tiles_x →
            0 ≤ y → y < p.firstConnector.tilingInfo.num_tiles_y →
            ∃ c ∈ p.connectors, coversCell c.tilingInfo x y = true)) := by
  refine ⟨?_, ?_, ?_⟩
  · intro h
    unfold isComplete
    simp [h]
  · intro h he
    unfold isComplete
    simp [h, he]
  · intro h he
    unfold isComplete
    simp only [h, he, if_true, if_false, Bool.false_eq_true, List.all_eq_true, List.mem_range]
    constructor
    · intro hall x y hx0 hxw hy0 hyh
      have hx : x.toNat < (p.firstConnector.tilingInfo.num_tiles_x).toNat :=
        Int.lt_toNat.mpr (by rwa [Int.toNat_of_nonneg hx0])
      have hy : y.toNat < (p.firstConnector.tilingInfo.num_tiles_y).toNat :=
        Int.lt_toNat.mpr (by rwa [Int.toNat_of_nonneg hy0])
      have := hall x.toNat hx y.toNat hy
      rw [List.any_eq_true] at this
      obtain ⟨c, hc, hcov⟩ := this
      refine ⟨c, hc, ?_⟩
      rwa [Int.toNat_of_nonneg hx0, Int.toNat_of_nonneg hy0] at hcov
    · intro hfa x hx y hy
      rw [List.any_eq_true]
      have := hfa (x : Int) (y : Int) (Int.ofNat_nonneg x) (Int.lt_toNat.mp hx)
        (Int.ofNat_nonneg y) (Int.lt_toNat.mp hy)
      obtain ⟨c, hc, hcov⟩ := this
      exact ⟨c, hc, hcov⟩

/-- A tiled two-connector pipeline (2×1 grid, tiles at loc 0 and 1). -/
def tiledPipe : Pipeline :=
  ⟨[⟨[], [⟨1920, 2160, 60, 5⟩], 0, 0, ⟨7, 0, 2, 1, 0, 0, 1920, 2160⟩⟩,
    ⟨[], [⟨1920, 2160, 60, 5⟩], 0, 0, ⟨7, 0, 2, 1, 1, 0, 1920, 2160⟩⟩],
   [], [], none, none, true, true, (0, 0), (0, 0), none, true, true, 0, false⟩

/-- A legacy (non-atomic) environment with every kernel call succeeding. -/
def legacyEnv : Env :=
  ⟨⟨false, false, false, false, false⟩, false, none, none, ⟨0, 0, 0, 0⟩,
   true, true, (fun _ => true), true, true, true, true, (fun _ => 0)⟩

/-- C9 witness: the tiled two-connector pipeline is complete, and the
grid characterization instantiated at cell (1, 0) produces a covering
connector. -/
theorem C9_isComplete_grid_witness :
    isComplete legacyEnv tiledPipe = true
    ∧ ∃ c ∈ tiledPipe.connectors, coversCell c.tilingInfo 1 0 = true :=
  ⟨by decide,
   ((C9_isComplete_grid legacyEnv tiledPipe).2.2 (by decide) (by decide)).mp (by decide)
     1 0 (by decide) (by decide) (by decide) (by decide)⟩

/-! ## Claim C7 — moveCursor is not idempotent (code bug) -/

/-- A fresh pipeline with a single CRTC for the cursor scenario. -/
def cursorPipe : Pipeline :=
  ⟨[], [⟨[], none, none⟩], [], none, none, true, true, (0, 0), (0, 0), none, true, true, 0, false⟩

/-- C7: the code at the claim's failing input.  Two consecutive successful
moveCursor((5,7)) calls each issue a drmModeMoveCursor ioctl (two in
total, not one): the success path of moveCursor never assigns
m_cursor.pos (drm_pipeline.cpp:357-370 stores it only in the failure
branch), so the second call's `m_cursor.pos == pos` test compares against
the stale position and resends. -/
theorem C7_moveCursor_not_idempotent :
    (moveCursor legacyEnv cursorPipe (5, 7)).1 = true
    ∧ (moveCursor legacyEnv cursorPipe (5, 7)).2.2.length = 1
    ∧ (moveCursor legacyEnv (moveCursor legacyEnv cursorPipe (5, 7)).2.1 (5, 7)).1 = true
    ∧ (moveCursor legacyEnv (moveCursor legacyEnv cursorPipe (5, 7)).2.1 (5, 7)).2.2.length = 1
    ∧ (moveCursor legacyEnv cursorPipe (5, 7)).2.1.cursorPos ≠ (5, 7) := by
  decide

/-! ## Claim C6 — setOverscan guard -/

/-- C6 counterexample: on a multi-tile (two-connector) pipeline,
setOverscan(0) returns false — the guard `m_connectors.count() > 1`
(drm_pipeline.cpp:520) rejects every percentage, so setOverscan(0) is not
"always accepted". -/
theorem C6_overscan_zero_counterexample :
    (setOverscanPipeline legacyEnv [tiledPipe] 0 0 0).1 = false := by
  decide

/-- C6 (amended): setOverscan(percent) returns false when percent > 100,
false on every multi-connector pipeline (any percent, including 0), and
false for non-zero percent without the overscan property; when the guard
passes — in particular setOverscan(0) on a single-connector pipeline even
without the property — it stages the connector's overscan and returns the
result of test(), which in legacy mode is true. -/
theorem C6_overscan_amended (env : Env) (ps : List Pipeline) (i percent k : Nat) :
    ((percent > 100 ∨ (pipeAt ps i).connectors.length > 1
        ∨ (percent ≠ 0 ∧ (pipeAt ps i).firstConnector.hasOverscan = false)) →
      setOverscanPipeline env ps i percent k = (false, ps, k, []))
    ∧ (percent ≤ 100 → (pipeAt ps i).connectors.length ≤ 1 →
        (percent = 0 ∨ (pipeAt ps i).firstConnector.hasOverscan = true) →
        env.gpu.atomicModeSetting = false →
        (setOverscanPipeline env ps i percent k).1 = true) := by
  constructor
  · intro h
    unfold setOverscanPipeline
    rcases h with h | h | ⟨h1, h2⟩
    · simp [h]
    · simp [h]
    · simp [h1, h2]
  · intro h100 hlen hz hleg
    unfold setOverscanPipeline
    have g1 : ¬percent > 100 := not_lt.mpr h100
    have g2 : ¬(pipeAt ps i).connectors.length > 1 := not_lt.mpr hlen
    rcases hz with hz | hz
    · simp [g1, g2, hz, testPipelines, hleg]
    · simp [g1, g2, hz, testPipelines, hleg]

/-- A single-connector pipeline without the overscan property. -/
def plainPipe : Pipeline :=
  ⟨[⟨[], [⟨800, 600, 60, 5⟩], 0, 0, TilingInfo.untiled⟩],
   [], [], none, none, true, true, (0, 0), (0, 0), none, true, true, 0, false⟩

/-- C6 witness: setOverscan(0) on a single-connector pipeline without the
property is accepted in legacy mode. -/
theorem C6_overscan_amended_witness :
    (0 ≤ 100 ∧ (pipeAt [plainPipe] 0).connectors.length ≤ 1)
    ∧ (setOverscanPipeline legacyEnv [plainPipe] 0 0 0).1 = true :=
  ⟨⟨by decide, by decide⟩,
   (C6_overscan_amended legacyEnv [plainPipe] 0 0 0).2 (by decide) (by decide)
     (Or.inl rfl) (by decide)⟩

/-! ## Commit-protocol infrastructure: what one processing step preserves -/

/-- The planes' staged transformations (the pending rotation values). -/
def rotationProfile (p : Pipeline) : List Nat :=
  p.primaryPlanes.map Plane.transformation

/-- How one checkTestBuffer step may move the scanout buffers: either it
leaves them alone, or it parks the previous primary buffer in
old_test_buffer. -/
def BufStep (p₀ p : Pipeline) : Prop :=
  (p.primaryBuffer = p₀.primaryBuffer ∧ p.oldTestBuffer = p₀.oldTestBuffer)
    ∨ p.oldTestBuffer = p₀.primaryBuffer

/-- What the per-pipeline processing of a group commit preserves: the
(current, next) cores, the connectors and CRTC lists, the staged
rotations, and the buffer discipline. -/
def ProcRel (p₀ q : Pipeline) : Prop :=
  q.cores = p₀.cores
    ∧ q.connectors = p₀.connectors
    ∧ q.crtcs = p₀.crtcs
    ∧ rotationProfile q = rotationProfile p₀
    ∧ q.active = p₀.active
    ∧ BufStep p₀ q

theorem procRel_refl (p : Pipeline) : ProcRel p p :=
  ⟨rfl, rfl, rfl, rfl, rfl, Or.inl ⟨rfl, rfl⟩⟩

theorem procRel_comp {p q r : Pipeline} (h1 : ProcRel p q) (h2 : ProcRel q r)
    (hbuf : r.primaryBuffer = q.primaryBuffer ∧ r.oldTestBuffer = q.oldTestBuffer) :
    ProcRel p r := by
  obtain ⟨a1, a2, a3, a4, a5, a6⟩ := h1
  obtain ⟨b1, b2, b3, b4, b5, _⟩ := h2
  refine ⟨b1.trans a1, b2.trans a2, b3.trans a3, b4.trans a4, b5.trans a5, ?_⟩
  rcases a6 with ⟨c1, c2⟩ | c
  · exact Or.inl ⟨hbuf.1.trans c1, hbuf.2.trans c2⟩
  · exact Or.inr (hbuf.2.trans c)

theorem zip_self_mem {α : Type} : ∀ (l : List α) (pq : α × α), pq ∈ l.zip l → pq.1 = pq.2
  | [], _, h => by cases h
  | x :: xs, pq, h => by
    rcases List.mem_cons.mp h with h | h
    · subst h; rfl
    · exact zip_self_mem xs pq h

theorem zip_getD_mem {α β : Type} :
    ∀ (l₁ : List α) (l₂ : List β) (i : Nat), i < l₁.length → i < l₂.length →
      ∀ (d₁ : α) (d₂ : β), (l₁.getD i d₁, l₂.getD i d₂) ∈ l₁.zip l₂
  | [], _, i, h1, _, _, _ => by cases h1
  | _ :: _, [], i, _, h2, _, _ => by cases h2
  | x :: xs, y :: ys, 0, _, _, d₁, d₂ => by
    simp [List.zip_cons_cons, List.getD]
  | x :: xs, y :: ys, i + 1, h1, h2, d₁, d₂ => by
    have := zip_getD_mem xs ys i (Nat.lt_of_succ_lt_succ h1) (Nat.lt_of_succ_lt_succ h2) d₁ d₂
    simp only [List.zip_cons_cons, List.getD, List.get?]
    exact List.mem_cons_of_mem _ this

theorem pipeAt_set (ps : List Pipeline) (x : Pipeline) (i : Nat) (h : i < ps.length) :
    pipeAt (ps.set i x) i = x := by
  unfold pipeAt
  rw [List.getD_eq_getElem?_getD, List.getElem?_set_self']
  simp [List.getElem?_eq_getElem h]

theorem length_pipeAt_eq (ps : List Pipeline) (x : Pipeline) (i : Nat) :
    (ps.set i x).length = ps.length :=
  List.length_set ps i x

/-! ### Rollback facts -/

theorem rollbackPipeline_clean (p : Pipeline) :
    (p.rollbackPipeline).allCellsClean = true := by
  unfold Pipeline.rollbackPipeline Pipeline.allCellsClean
  cases h : p.oldTestBuffer.isSome <;>
    simp [h, List.all_map, Function.comp, Connector.rollbackPending, Crtc.rollbackPending,
      Plane.rollbackPending, clean_rollback, List.all_eq_true]

theorem rollbackPipeline_oldTestBuffer (p : Pipeline) :
    (p.rollbackPipeline).oldTestBuffer = none := by
  unfold Pipeline.rollbackPipeline
  cases h : p.oldTestBuffer with
  | none => simp [h]
  | some b => simp [h]

theorem rollbackPipeline_cores (p : Pipeline) :
    (p.rollbackPipeline).cores = p.cores := by
  unfold Pipeline.rollbackPipeline Pipeline.cores
  have h1 : ∀ c : Connector,
      PropsOps.cores (Connector.rollbackPending c).props = PropsOps.cores c.props :=
    fun c => cores_rollback c.props
  have h2 : ∀ c : Crtc,
      PropsOps.cores (Crtc.rollbackPending c).props = PropsOps.cores c.props :=
    fun c => cores_rollback c.props
  have h3 : ∀ c : Plane,
      PropsOps.cores (Plane.rollbackPending c).props = PropsOps.cores c.props :=
    fun c => cores_rollback c.props
  have h4 : ∀ c : Connector, (Connector.rollbackPending c).modeIdx = c.modeIdx :=
    fun _ => rfl
  cases h : p.oldTestBuffer.isSome <;>
    simp [h, List.map_map, Function.comp_def, h1, h2, h3, h4]

theorem rollbackPipeline_primary_restored {p₀ q : Pipeline} (hb : BufStep p₀ q)
    (hold : p₀.oldTestBuffer = none) (hsome : p₀.primaryBuffer.isSome = true) :
    (q.rollbackPipeline).primaryBuffer = p₀.primaryBuffer := by
  unfold Pipeline.rollbackPipeline
  rcases hb with ⟨h1, h2⟩ | h
  · rw [h2, hold]
    simp [h1]
  · rw [h]
    cases hp : p₀.primaryBuffer with
    | none => rw [hp] at hsome; cases hsome
    | some b => simp [hp]

/-! ### What checkTestBuffer can do -/

theorem ladder_cases (env : Env) (p : Pipeline) :
    (checkTestBuffer.checkTestBufferLadder env p).2 = p ∨
    ∃ b, (checkTestBuffer.checkTestBufferLadder env p).2
      = { p with oldTestBuffer := p.primaryBuffer, primaryBuffer := some b } := by
  unfold checkTestBuffer.checkTestBufferLadder checkTestBuffer.adopt
  repeat' split
  all_goals first
    | (left; rfl)
    | (right; exact ⟨_, rfl⟩)

theorem checkTestBuffer_cases (env : Env) (p : Pipeline) :
    (checkTestBuffer env p).2 = p ∨
    ∃ b, (checkTestBuffer env p).2
      = { p with oldTestBuffer := p.primaryBuffer, primaryBuffer := some b } := by
  unfold checkTestBuffer
  split
  · split
    · left; rfl
    · exact ladder_cases env p
  · exact ladder_cases env p

theorem checkTestBuffer_rel (env : Env) (p : Pipeline) :
    ProcRel p (checkTestBuffer env p).2 := by
  rcases checkTestBuffer_cases env p with h | ⟨b, h⟩
  · rw [h]; exact procRel_refl p
  · rw [h]
    exact ⟨rfl, rfl, rfl, rfl, rfl, Or.inr rfl⟩

/-! ### What populateAtomicValues preserves -/

theorem planeStage_cores (pl : Plane) (a : Int × Int) (b : Nat × Nat) (c : Int × Int)
    (d : Nat × Nat) (ob : Option Buffer) :
    PropsOps.cores (Plane.setBuffer (Plane.set pl a b c d) ob).props
      = PropsOps.cores pl.props := by
  unfold Plane.set Plane.setBuffer
  simp [cores_setPending]

theorem planeStage_rot (pl : Plane) (a : Int × Int) (b : Nat × Nat) (c : Int × Int)
    (d : Nat × Nat) (ob : Option Buffer) :
    (Plane.setBuffer (Plane.set pl a b c d) ob).transformation = pl.transformation := by
  unfold Plane.set Plane.setBuffer Plane.transformation
  simp only
  rw [cellAt_setPending_ne _ planeFbId _ planeRotation (by decide),
    cellAt_setPending_ne _ planeCrtcH _ planeRotation (by decide),
    cellAt_setPending_ne _ planeCrtcW _ planeRotation (by decide),
    cellAt_setPending_ne _ planeCrtcY _ planeRotation (by decide),
    cellAt_setPending_ne _ planeCrtcX _ planeRotation (by decide),
    cellAt_setPending_ne _ planeSrcH _ planeRotation (by decide),
    cellAt_setPending_ne _ planeSrcW _ planeRotation (by decide),
    cellAt_setPending_ne _ planeSrcY _ planeRotation (by decide),
    cellAt_setPending_ne _ planeSrcX _ planeRotation (by decide)]

theorem zip_stage_map {γ : Type} (g : Plane → γ) (f : Connector × Plane → Plane)
    (hf : ∀ cp : Connector × Plane, g (f cp) = g cp.2) :
    ∀ (cs : List Connector) (pls : List Plane),
      ((cs.zip pls).map f ++ pls.drop cs.length).map g = pls.map g
  | [], pls => by simp
  | c :: cs, [] => by simp
  | c :: cs, pl :: pls => by
    have ih := zip_stage_map g f hf cs pls
    simp only [List.zip_cons_cons, List.map_cons, List.cons_append, List.length_cons,
      List.drop_succ_cons]
    rw [hf (c, pl), ih]

theorem stagePlanes_append_map {γ : Type} (g : Plane → γ)
    (hg : ∀ (pl : Plane) (a : Int × Int) (b : Nat × Nat) (c : Int × Int) (d : Nat × Nat)
      (ob : Option Buffer), g (Plane.setBuffer (Plane.set pl a b c d) ob) = g pl)
    (q : Pipeline) :
    (stagePlanesFor q ++ q.primaryPlanes.drop q.connectors.length).map g
      = q.primaryPlanes.map g := by
  unfold stagePlanesFor
  exact zip_stage_map g _ (fun cp => hg cp.2 _ _ _ _ _) q.connectors q.primaryPlanes

/-- The pipeline state populateAtomicValues produces, as a record. -/
theorem populate_state_eq (env : Env) (p : Pipeline) (fl : Nat) :
    (populateAtomicValues env p fl).2.1
      = ⟨p.connectors, p.crtcs,
          stagePlanesFor
              ⟨p.connectors, p.crtcs, p.primaryPlanes, p.primaryBuffer, p.oldTestBuffer,
                p.active, p.legacyNeedsModeset, p.cursorPos, p.cursorHotspot, p.cursorBuffer,
                p.cursorDirtyBo, p.cursorDirtyPos, populateFlags env p fl, p.hasOutput⟩
            ++ p.primaryPlanes.drop p.connectors.length,
          p.primaryBuffer, p.oldTestBuffer, p.active, p.legacyNeedsModeset, p.cursorPos,
          p.cursorHotspot, p.cursorBuffer, p.cursorDirtyBo, p.cursorDirtyPos,
          populateFlags env p fl, p.hasOutput⟩ := rfl

set_option maxHeartbeats 2000000 in
theorem populate_rel (env : Env) (p : Pipeline) (fl : Nat) :
    ProcRel p (populateAtomicValues env p fl).2.1
    ∧ (populateAtomicValues env p fl).2.1.primaryBuffer = p.primaryBuffer
    ∧ (populateAtomicValues env p fl).2.1.oldTestBuffer = p.oldTestBuffer := by
  rw [populate_state_eq]
  have hq : ∀ γ : Type, ∀ g : Plane → γ,
      (∀ (pl : Plane) (a : Int × Int) (b : Nat × Nat) (c : Int × Int) (d : Nat × Nat)
        (ob : Option Buffer), g (Plane.setBuffer (Plane.set pl a b c d) ob) = g pl) →
      (stagePlanesFor
            ⟨p.connectors, p.crtcs, p.primaryPlanes, p.primaryBuffer, p.oldTestBuffer,
              p.active, p.legacyNeedsModeset, p.cursorPos, p.cursorHotspot, p.cursorBuffer,
              p.cursorDirtyBo, p.cursorDirtyPos, populateFlags env p fl, p.hasOutput⟩
          ++ p.primaryPlanes.drop p.connectors.length).map g
        = p.primaryPlanes.map g := by
    intro γ g hg
    have h := stagePlanes_append_map g hg
      ⟨p.connectors, p.crtcs, p.primaryPlanes, p.primaryBuffer, p.oldTestBuffer,
        p.active, p.legacyNeedsModeset, p.cursorPos, p.cursorHotspot, p.cursorBuffer,
        p.cursorDirtyBo, p.cursorDirtyPos, populateFlags env p fl, p.hasOutput⟩
    exact h
  refine ⟨⟨?_, rfl, rfl, ?_, rfl, Or.inl ⟨rfl, rfl⟩⟩, rfl, rfl⟩
  · unfold Pipeline.cores
    simp only [Prod.mk.injEq]
    constructor
    · rw [hq _ (fun pl => PropsOps.cores pl.props)
        (fun pl a b c d ob => planeStage_cores pl a b c d ob)]
    · trivial
  · unfold rotationProfile
    exact hq _ Plane.transformation (fun pl a b c d ob => planeStage_rot pl a b c d ob)

/-! ### The per-pipeline loop of the atomic group commit -/

theorem processAll_rel (env : Env) :
    ∀ (ps : List Pipeline) (fl : Nat),
      (processAll env ps fl).2.1.length = ps.length
      ∧ ∀ pq ∈ (processAll env ps fl).2.1.zip ps, ProcRel pq.2 pq.1
  | [], fl => ⟨rfl, by intro pq h; cases h⟩
  | p :: rest, fl => by
    have ctbRel := checkTestBuffer_rel env p
    have popRel := populate_rel env (checkTestBuffer env p).2 fl
    unfold processAll
    by_cases h1 : (checkTestBuffer env p).1 = true
    · by_cases h2 : (populateAtomicValues env (checkTestBuffer env p).2 fl).1 = true
      · have ih := processAll_rel env rest
          (populateAtomicValues env (checkTestBuffer env p).2 fl).2.2
        simp only [h1, h2, Bool.not_true, if_false, reduceIte]
        refine ⟨by simp [ih.1], ?_⟩
        intro pq hm
        rcases List.mem_cons.mp hm with hm | hm
        · subst hm
          exact procRel_comp ctbRel popRel.1 ⟨popRel.2.1, popRel.2.2⟩
        · exact ih.2 pq hm
      · have h2f : (populateAtomicValues env (checkTestBuffer env p).2 fl).1 = false := by
          simpa using h2
        simp only [h1, h2f, Bool.not_true, Bool.not_false, if_true, if_false, reduceIte]
        refine ⟨rfl, ?_⟩
        intro pq hm
        rcases List.mem_cons.mp hm with hm | hm
        · subst hm
          exact procRel_comp ctbRel popRel.1 ⟨popRel.2.1, popRel.2.2⟩
        · have := zip_self_mem rest pq hm
          rw [this]
          exact procRel_refl _
    · have h1f : (checkTestBuffer env p).1 = false := by simpa using h1
      simp only [h1f, Bool.not_false, if_true, reduceIte]
      refine ⟨rfl, ?_⟩
      intro pq hm
      rcases List.mem_cons.mp hm with hm | hm
      · subst hm
        exact ctbRel
      · have := zip_self_mem rest pq hm
        rw [this]
        exact procRel_refl _

/-! ### The two outcomes of an atomic group commit -/

theorem commitAtomic_cases (env : Env) (ps : List Pipeline) (mode : CommitMode) (k : Nat)
    (halloc : env.atomicAllocOk = true) :
    ((commitPipelinesAtomic env ps mode k).2.1
        = (processAll env ps 0).2.1.map Pipeline.rollbackPipeline
      ∧ (commitPipelinesAtomic env ps mode k).1 = false)
    ∨ ((∃ b : Bool, (commitPipelinesAtomic env ps mode k).2.1
        = (processAll env ps 0).2.1.map (fun q => q.commitPipelineState b))
      ∧ (commitPipelinesAtomic env ps mode k).1 = true) := by
  unfold commitPipelinesAtomic
  rw [halloc]
  simp only [Bool.not_true, Bool.false_eq_true, if_false, reduceIte]
  by_cases h1 : (processAll env ps 0).1 = true
  · simp only [h1, Bool.not_true, Bool.false_eq_true, if_false, reduceIte]
    by_cases h2 : env.commitOk k = true
    · simp only [h2, Bool.not_true, Bool.false_eq_true, if_false, reduceIte]
      by_cases hm : mode = CommitMode.Test
      · simp only [hm, ne_eq, not_true_eq_false, if_false, reduceIte]
        right
        exact ⟨⟨true, rfl⟩, trivial⟩
      · simp only [ne_eq, hm, not_false_eq_true, if_true, reduceIte]
        by_cases h3 : env.commitOk (k + 1) = true
        · simp only [h3, Bool.not_true, Bool.false_eq_true, if_false, reduceIte]
          right
          exact ⟨⟨false, rfl⟩, trivial⟩
        · have h3f : env.commitOk (k + 1) = false := by simpa using h3
          simp only [h3f, Bool.not_false, if_true, reduceIte]
          left
          exact ⟨trivial, trivial⟩
    · have h2f : env.commitOk k = false := by simpa using h2
      simp only [h2f, Bool.not_false, if_true, reduceIte]
      left
      exact ⟨trivial, trivial⟩
  · have h1f : (processAll env ps 0).1 = false := by simpa using h1
    simp only [h1f, Bool.not_false, if_true, reduceIte]
    left
    exact ⟨trivial, trivial⟩

/-! ## Claim C1 — the failed path of a group commit rolls everything back -/

/-- C1: an atomic group commit that returns false (with the request
allocation having succeeded, so the failure came from the test-buffer
check, from populating, or from one of the two commit ioctls) leaves every
pipeline with old_test_buffer cleared and every property cell with
pending == current; every cell's (current, next) core and every
connector's committed mode index are exactly as before the call; and a
pipeline that entered with a primary buffer and no parked test buffer
keeps its primary buffer. -/
theorem C1_group_commit_rollback (env : Env) (ps : List Pipeline) (mode : CommitMode) (k : Nat)
    (hne : ps ≠ [])
    (hat : env.gpu.atomicModeSetting = true)
    (halloc : env.atomicAllocOk = true)
    (hfail : (commitPipelines env ps mode k).1 = false) :
    (commitPipelines env ps mode k).2.1.length = ps.length
    ∧ (∀ q ∈ (commitPipelines env ps mode k).2.1,
        q.allCellsClean = true ∧ q.oldTestBuffer = none)
    ∧ ∀ pq ∈ (commitPipelines env ps mode k).2.1.zip ps,
        pq.1.cores = pq.2.cores
        ∧ (pq.2.oldTestBuffer = none → pq.2.primaryBuffer.isSome = true →
            pq.1.primaryBuffer = pq.2.primaryBuffer) := by
  have hdis : commitPipelines env ps mode k = commitPipelinesAtomic env ps mode k := by
    unfold commitPipelines
    rw [hat]
    rfl
  rw [hdis] at hfail ⊢
  rcases commitAtomic_cases env ps mode k halloc with ⟨heq, _⟩ | ⟨_, htrue⟩
  · rw [heq]
    have pr := processAll_rel env ps 0
    refine ⟨?_, ?_, ?_⟩
    · rw [List.length_map, pr.1]
    · intro q hq
      rw [List.mem_map] at hq
      obtain ⟨q₀, _, rfl⟩ := hq
      exact ⟨rollbackPipeline_clean q₀, rollbackPipeline_oldTestBuffer q₀⟩
    · intro pq hm
      rw [List.zip_map_left, List.mem_map] at hm
      obtain ⟨pq₀, hm₀, rfl⟩ := hm
      obtain ⟨a, b⟩ := pq₀
      have hrel := pr.2 (a, b) hm₀
      refine ⟨?_, ?_⟩
      · show (Pipeline.rollbackPipeline a).cores = b.cores
        rw [rollbackPipeline_cores]
        exact hrel.1
      · intro hold hsome
        exact rollbackPipeline_primary_restored hrel.2.2.2.2.2 hold hsome
  · rw [htrue] at hfail
    cases hfail

/-- An environment for a failing atomic test: allocation and population
succeed, but every commit ioctl is rejected by the kernel. -/
def rejectEnv : Env :=
  ⟨⟨true, false, true, false, false⟩, true, some ⟨44, 800, 600, 7⟩, none, ⟨1, 800, 600, 0⟩,
   true, true, (fun _ => false), true, true, true, true, (fun _ => 0)⟩

/-- A single-tile pipeline with a staged (pending ≠ current) ACTIVE value,
no primary buffer yet, and an output assigned. -/
def stagedPipe : Pipeline :=
  ⟨[⟨[some ⟨11, 5, 0, 0, false, false, []⟩], [⟨800, 600, 60, 5⟩], 0, 0, TilingInfo.untiled⟩],
   [⟨[some ⟨21, 1, 0, 0, false, false, []⟩, some ⟨22, 9, 9, 9, false, false, []⟩], none, none⟩],
   [⟨[some ⟨31, 0, 0, 0, false, false, []⟩, none, none, none, none, none, none, none, none, none,
      some ⟨32, 2, 2, 2, false, false, [(1, 1), (2, 2)]⟩], none, none⟩],
   some ⟨50, 800, 600, 7⟩, none, true, true, (0, 0), (0, 0), none, true, true, 0, true⟩

/-- C1 witness: a rejected TEST_ONLY ioctl rolls the staged pipeline back
to pending == current everywhere and keeps its primary buffer. -/
theorem C1_group_commit_rollback_witness :
    (commitPipelines rejectEnv [stagedPipe] CommitMode.Test 0).1 = false
    ∧ (∀ q ∈ (commitPipelines rejectEnv [stagedPipe] CommitMode.Test 0).2.1,
        q.allCellsClean = true ∧ q.oldTestBuffer = none)
    ∧ ∀ pq ∈ (commitPipelines rejectEnv [stagedPipe] CommitMode.Test 0).2.1.zip [stagedPipe],
        pq.1.cores = pq.2.cores
        ∧ (pq.2.oldTestBuffer = none → pq.2.primaryBuffer.isSome = true →
            pq.1.primaryBuffer = pq.2.primaryBuffer) :=
  ⟨by decide,
   (C1_group_commit_rollback rejectEnv [stagedPipe] CommitMode.Test 0 (by decide) (by decide)
     (by decide) (by decide)).2.1,
   (C1_group_commit_rollback rejectEnv [stagedPipe] CommitMode.Test 0 (by decide) (by decide)
     (by decide) (by decide)).2.2⟩

/-! ## Claim C8 — setSyncMode -/

theorem cellAt_setPending_self (pr : Props) (idx v : Nat) (c : Cell)
    (h : PropsOps.cellAt pr idx = some c) :
    PropsOps.cellAt (PropsOps.setPending pr idx v).2 idx = some (c.setPending v) := by
  unfold PropsOps.cellAt at h ⊢
  unfold PropsOps.setPending
  cases hg : pr.get? idx with
  | none => rw [hg] at h; cases h
  | some oc =>
    cases oc with
    | none => rw [hg] at h; cases h
    | some cc =>
      rw [hg] at h
      have hcc : cc = c := by
        simpa [Option.join] using h
      subst hcc
      have hset := List.get?_set_eq (some (cc.setPending v)) idx pr
      rw [hg] at hset
      rw [hset]
      rfl

theorem stageVrr_success (t : Nat) (cs : List Crtc) :
    (stageVrr t cs).1 = cs.all fun c => (PropsOps.cellAt c.props crtcVrrEnabled).isSome := by
  induction cs with
  | nil => rfl
  | cons c rest ih =>
    unfold stageVrr
    cases hc : PropsOps.cellAt c.props crtcVrrEnabled with
    | none => simp [hc]
    | some cell =>
      simp only [hc, ih, List.all_cons, Option.isSome_some, Bool.true_and]
      split <;> rfl

theorem stageVrr_staged (t : Nat) (cs : List Crtc)
    (hall : (cs.all fun c => (PropsOps.cellAt c.props crtcVrrEnabled).isSome) = true) :
    ∀ c ∈ (stageVrr t cs).2.2,
      (PropsOps.cellAt c.props crtcVrrEnabled).map Cell.pending = some t := by
  induction cs with
  | nil => intro c hc; cases hc
  | cons c rest ih =>
    rw [List.all_cons, Bool.and_eq_true] at hall
    obtain ⟨h1, h2⟩ := hall
    unfold stageVrr
    cases hc : PropsOps.cellAt c.props crtcVrrEnabled with
    | none => rw [hc] at h1; cases h1
    | some cell =>
      by_cases hp : cell.pending = t
      · simp only [hc, hp, ne_eq, not_true_eq_false, if_false, reduceIte]
        intro x hx
        rcases List.mem_cons.mp hx with hx | hx
        · subst hx
          simp [hc, hp]
        · exact ih h2 x hx
      · simp only [hc, hp, ne_eq, not_false_eq_true, if_true, reduceIte]
        intro x hx
        rcases List.mem_cons.mp hx with hx | hx
        · subst hx
          rw [cellAt_setPending_self c.props crtcVrrEnabled t cell hc]
          rfl
        · exact ih h2 x hx

theorem stageVrr_noop (t : Nat) (cs : List Crtc)
    (hall : (cs.all fun c =>
        decide ((PropsOps.cellAt c.props crtcVrrEnabled).map Cell.pending = some t)) = true) :
    stageVrr t cs = (true, false, cs) := by
  induction cs with
  | nil => rfl
  | cons c rest ih =>
    rw [List.all_cons, Bool.and_eq_true] at hall
    obtain ⟨h1, h2⟩ := hall
    rw [decide_eq_true_eq] at h1
    unfold stageVrr
    cases hc : PropsOps.cellAt c.props crtcVrrEnabled with
    | none => rw [hc] at h1; cases h1
    | some cell =>
      rw [hc] at h1
      have hp : cell.pending = t := by
        simpa using h1
      simp [hc, hp, ih h2]

theorem stageVrr_needsTest (t : Nat) (cs : List Crtc)
    (hall : (cs.all fun c => (PropsOps.cellAt c.props crtcVrrEnabled).isSome) = true) :
    (stageVrr t cs).2.1
      = cs.any fun c =>
          decide (¬(PropsOps.cellAt c.props crtcVrrEnabled).map Cell.pending = some t) := by
  induction cs with
  | nil => rfl
  | cons c rest ih =>
    rw [List.all_cons, Bool.and_eq_true] at hall
    obtain ⟨h1, h2⟩ := hall
    unfold stageVrr
    cases hc : PropsOps.cellAt c.props crtcVrrEnabled with
    | none => rw [hc] at h1; cases h1
    | some cell =>
      by_cases hp : cell.pending = t
      · simp [hc, hp, ih h2]
      · simp [hc, hp, ih h2]

/-- A VRR-capable connector (vrr_capable cell with kernel value 1). -/
def vrrConn : Connector :=
  ⟨[none, none, none, none, none, some ⟨9, 1, 1, 1, true, false, []⟩],
   [⟨800, 600, 60, 5⟩], 0, 0, TilingInfo.untiled⟩

/-- A CRTC without a VrrEnabled property cell. -/
def noVrrCrtc : Crtc := ⟨[some ⟨21, 1, 1, 1, false, false, []⟩], none, none⟩

/-- A pipeline whose connector reports VRR capability but whose CRTC lacks
the VrrEnabled property. -/
def vrrGapPipe : Pipeline :=
  ⟨[vrrConn], [noVrrCrtc], [], none, none, true, true, (0, 0), (0, 0), none,
   true, true, 0, false⟩

/-- An atomic-modesetting environment with every kernel call succeeding. -/
def atomicEnv : Env :=
  ⟨⟨true, false, false, false, false⟩, false, none, none, ⟨0, 0, 0, 0⟩,
   true, true, (fun _ => true), true, true, true, true, (fun _ => 0)⟩

/-- C8 counterexample: with a VRR-capable connector but a CRTC lacking the
VrrEnabled property, setSyncMode(Fixed) returns false — not true as the
claim ("exactly the Fixed mode is accepted") requires. -/
theorem C8_syncmode_counterexample :
    (setSyncMode atomicEnv [vrrGapPipe] 0 SyncMode.Fixed 0).1 = false
    ∧ vrrCapablePipeline vrrGapPipe = true := by
  decide

/-- C8 (amended): when some connector is not VRR-capable, setSyncMode
accepts exactly Fixed (true) and rejects Adaptive (false), with no state
change and no ioctl; when the connectors are VRR-capable but some CRTC
lacks the VrrEnabled property, the atomic branch rejects both modes; when
VRR is fully available, the atomic branch stages the target VrrEnabled
value on every CRTC and runs a test exactly when some pending value
changed (returning true without any ioctl otherwise); the legacy branch
writes the first CRTC's property directly — succeeding iff the property
exists and the ioctl succeeds — with no atomic test. -/
theorem C8_syncmode_amended (env : Env) (ps : List Pipeline) (i : Nat) (mode : SyncMode)
    (k : Nat) :
    (vrrCapablePipeline (pipeAt ps i) = false →
      setSyncMode env ps i mode k = ((mode == SyncMode.Fixed), ps, k, []))
    ∧ (vrrCapablePipeline (pipeAt ps i) = true → env.gpu.atomicModeSetting = true →
        ((pipeAt ps i).crtcs.all fun c => (PropsOps.cellAt c.props crtcVrrEnabled).isSome)
            = false →
        (setSyncMode env ps i mode k).1 = false ∧ (setSyncMode env ps i mode k).2.2.2 = [])
    ∧ (vrrCapablePipeline (pipeAt ps i) = true → env.gpu.atomicModeSetting = true →
        ((pipeAt ps i).crtcs.all fun c => (PropsOps.cellAt c.props crtcVrrEnabled).isSome)
            = true →
        ((pipeAt ps i).crtcs.any fun c =>
            decide (¬(PropsOps.cellAt c.props crtcVrrEnabled).map Cell.pending
              = some (if mode = SyncMode.Adaptive then 1 else 0))) = true →
        (setSyncMode env ps i mode k
            = testPipelines env
                (ps.set i { pipeAt ps i with
                  crtcs := (stageVrr (if mode = SyncMode.Adaptive then 1 else 0)
                    (pipeAt ps i).crtcs).2.2 }) i k
          ∧ ∀ c ∈ (stageVrr (if mode = SyncMode.Adaptive then 1 else 0)
                (pipeAt ps i).crtcs).2.2,
              (PropsOps.cellAt c.props crtcVrrEnabled).map Cell.pending
                = some (if mode = SyncMode.Adaptive then 1 else 0)))
    ∧ (vrrCapablePipeline (pipeAt ps i) = true → env.gpu.atomicModeSetting = true →
        ((pipeAt ps i).crtcs.all fun c =>
            decide ((PropsOps.cellAt c.props crtcVrrEnabled).map Cell.pending
              = some (if mode = SyncMode.Adaptive then 1 else 0))) = true →
        setSyncMode env ps i mode k
          = (true, ps.set i { pipeAt ps i with crtcs := (pipeAt ps i).crtcs }, k, []))
    ∧ (vrrCapablePipeline (pipeAt ps i) = true → env.gpu.atomicModeSetting = false →
        (setSyncMode env ps i mode k).1
            = (((PropsOps.cellAt ((pipeAt ps i).crtcs.headD ⟨[], none, none⟩).props
                crtcVrrEnabled).isSome) && env.setPropOk)
          ∧ (setSyncMode env ps i mode k).2.1 = ps
          ∧ ((setSyncMode env ps i mode k).2.2.2.all fun io =>
              match io with
              | Ioctl.objectSetProperty _ _ => true
              | _ => false) = true) := by
  refine ⟨?_, ?_, ?_, ?_, ?_⟩
  · intro hv
    unfold setSyncMode
    simp [hv]
  · intro hv hat hmiss
    unfold setSyncMode
    have hs : (stageVrr (if mode = SyncMode.Adaptive then 1 else 0) (pipeAt ps i).crtcs).1
        = false := by
      rw [stageVrr_success, hmiss]
    simp [hv, hat, hs]
  · intro hv hat hall hany
    unfold setSyncMode
    have hs : (stageVrr (if mode = SyncMode.Adaptive then 1 else 0) (pipeAt ps i).crtcs).1
        = true := by
      rw [stageVrr_success, hall]
    have hn : (stageVrr (if mode = SyncMode.Adaptive then 1 else 0) (pipeAt ps i).crtcs).2.1
        = true := by
      rw [stageVrr_needsTest _ _ hall, hany]
    refine ⟨?_, stageVrr_staged _ _ hall⟩
    simp [hv, hat, hs, hn]
  · intro hv hat hsame
    unfold setSyncMode
    have hs := stageVrr_noop (if mode = SyncMode.Adaptive then 1 else 0) (pipeAt ps i).crtcs
      hsame
    simp [hv, hat, hs]
  · intro hv hat
    unfold setSyncMode
    cases hc : PropsOps.cellAt ((pipeAt ps i).crtcs.head?.getD ⟨[], none, none⟩).props
        crtcVrrEnabled with
    | none => simp [hv, hat, hc]
    | some cell => simp [hv, hat, hc]

/-- C8 witness: on a pipeline that is not VRR-capable, Fixed is accepted
with no state change and Adaptive is rejected. -/
theorem C8_syncmode_amended_witness :
    vrrCapablePipeline (pipeAt [plainPipe] 0) = false
    ∧ setSyncMode legacyEnv [plainPipe] 0 SyncMode.Fixed 0 = (true, [plainPipe], 0, [])
    ∧ setSyncMode legacyEnv [plainPipe] 0 SyncMode.Adaptive 0 = (false, [plainPipe], 0, []) :=
  ⟨by decide,
   (C8_syncmode_amended legacyEnv [plainPipe] 0 SyncMode.Fixed 0).1 (by decide),
   (C8_syncmode_amended legacyEnv [plainPipe] 0 SyncMode.Adaptive 0).1 (by decide)⟩

/-! ## Claim C5 — modeset retry without rotation -/

theorem commitAtomic_length (env : Env) (ps : List Pipeline) (mode : CommitMode) (k : Nat) :
    (commitPipelinesAtomic env ps mode k).2.1.length = ps.length := by
  by_cases halloc : env.atomicAllocOk = true
  · rcases commitAtomic_cases env ps mode k halloc with ⟨heq, _⟩ | ⟨⟨b, heq⟩, _⟩ <;>
      rw [heq, List.length_map, (processAll_rel env ps 0).1]
  · have h : env.atomicAllocOk = false := by simpa using halloc
    unfold commitPipelinesAtomic
    simp [h]

theorem testPipelines_length (env : Env) (ps : List Pipeline) (i k : Nat) :
    (testPipelines env ps i k).2.1.length = ps.length := by
  unfold testPipelines
  by_cases hat : env.gpu.atomicModeSetting = true
  · simp only [hat, if_true, reduceIte]
    by_cases hc : (checkTestBuffer env (pipeAt ps i)).1 = true
    · simp only [hc, Bool.not_true, Bool.false_eq_true, if_false, reduceIte]
      unfold commitPipelines
      rw [hat]
      simp only [if_true, reduceIte]
      rw [commitAtomic_length, List.length_set]
    · have hcf : (checkTestBuffer env (pipeAt ps i)).1 = false := by simpa using hc
      simp only [hcf, Bool.not_false, if_true, reduceIte, List.length_set]
  · have h : env.gpu.atomicModeSetting = false := by simpa using hat
    simp [h]

theorem modesetSetValues_length (ps : List Pipeline) (i t : Nat) :
    (modesetSetValues ps i t).length = ps.length := by
  unfold modesetSetValues
  rw [List.length_set]

theorem commitAtomic_test_success (env : Env) (ps : List Pipeline) (k : Nat)
    (halloc : env.atomicAllocOk = true)
    (hs : (commitPipelinesAtomic env ps CommitMode.Test k).1 = true) :
    (commitPipelinesAtomic env ps CommitMode.Test k).2.1
      = (processAll env ps 0).2.1.map (fun q => q.commitPipelineState true) := by
  unfold commitPipelinesAtomic at hs ⊢
  rw [halloc] at hs ⊢
  simp only [Bool.not_true, Bool.false_eq_true, if_false, reduceIte] at hs ⊢
  by_cases h1 : (processAll env ps 0).1 = true
  · simp only [h1, Bool.not_true, Bool.false_eq_true, if_false, reduceIte] at hs ⊢
    by_cases h2 : env.commitOk k = true
    · simp only [h2, Bool.not_true, Bool.false_eq_true, if_false, reduceIte,
        ne_eq, not_true_eq_false] at hs ⊢
    · have h2f : env.commitOk k = false := by simpa using h2
      simp only [h2f, Bool.not_false, if_true, reduceIte] at hs
      cases hs
  · have h1f : (processAll env ps 0).1 = false := by simpa using h1
    simp only [h1f, Bool.not_false, if_true, reduceIte] at hs
    cases hs

theorem commitAtomic_fail_members (env : Env) (ps : List Pipeline) (mode : CommitMode)
    (k : Nat) (halloc : env.atomicAllocOk = true)
    (hfail : (commitPipelinesAtomic env ps mode k).1 = false) :
    ∀ q ∈ (commitPipelinesAtomic env ps mode k).2.1,
      q.allCellsClean = true ∧ q.oldTestBuffer = none := by
  rcases commitAtomic_cases env ps mode k halloc with ⟨heq, _⟩ | ⟨_, ht⟩
  · rw [heq]
    intro q hq
    rw [List.mem_map] at hq
    obtain ⟨q₀, _, rfl⟩ := hq
    exact ⟨rollbackPipeline_clean q₀, rollbackPipeline_oldTestBuffer q₀⟩
  · rw [ht] at hfail
    cases hfail

theorem testPipelines_success_state (env : Env) (ps : List Pipeline) (i k : Nat)
    (hat : env.gpu.atomicModeSetting = true)
    (halloc : env.atomicAllocOk = true)
    (hs : (testPipelines env ps i k).1 = true) :
    (testPipelines env ps i k).2.1
      = (processAll env (ps.set i (checkTestBuffer env (pipeAt ps i)).2) 0).2.1.map
          (fun q => q.commitPipelineState true) := by
  unfold testPipelines at hs ⊢
  rw [hat] at hs ⊢
  simp only [if_true, reduceIte] at hs ⊢
  by_cases hc : (checkTestBuffer env (pipeAt ps i)).1 = true
  · simp only [hc, Bool.not_true, Bool.false_eq_true, if_false, reduceIte] at hs ⊢
    unfold commitPipelines at hs ⊢
    rw [hat] at hs ⊢
    simp only [if_true, reduceIte] at hs ⊢
    exact commitAtomic_test_success env _ k halloc hs
  · have hcf : (checkTestBuffer env (pipeAt ps i)).1 = false := by simpa using hc
    simp only [hcf, Bool.not_false, if_true, reduceIte] at hs
    cases hs

theorem testPipelines_fail_members (env : Env) (ps : List Pipeline) (i k : Nat)
    (hat : env.gpu.atomicModeSetting = true)
    (halloc : env.atomicAllocOk = true)
    (hctb : (checkTestBuffer env (pipeAt ps i)).1 = true)
    (hf : (testPipelines env ps i k).1 = false) :
    ∀ q ∈ (testPipelines env ps i k).2.1,
      q.allCellsClean = true ∧ q.oldTestBuffer = none := by
  unfold testPipelines at hf ⊢
  rw [hat] at hf ⊢
  simp only [if_true, reduceIte] at hf ⊢
  simp only [hctb, Bool.not_true, Bool.false_eq_true, if_false, reduceIte] at hf ⊢
  unfold commitPipelines at hf ⊢
  rw [hat] at hf ⊢
  simp only [if_true, reduceIte] at hf ⊢
  exact commitAtomic_fail_members env _ CommitMode.Test k halloc hf

theorem get?_of_cellAt (pr : Props) (idx : Nat) (c : Cell)
    (h : PropsOps.cellAt pr idx = some c) : pr.get? idx = some (some c) := by
  unfold PropsOps.cellAt at h
  cases hg : pr.get? idx with
  | none => rw [hg] at h; cases h
  | some oc =>
    cases oc with
    | none => rw [hg] at h; cases h
    | some cc =>
      rw [hg] at h
      have hcc : cc = c := by simpa using h
      rw [hcc]

theorem stageTransformation_all (t v : Nat) :
    ∀ pls : List Plane,
      (pls.all fun pl =>
        decide ((PropsOps.cellAt pl.props planeRotation).map (fun c => c.enumMap.lookup t)
          = some (some v))) = true →
      (stageTransformation t pls).1 = true
      ∧ ∀ pl ∈ (stageTransformation t pls).2, pl.transformation = v
  | [], _ => ⟨rfl, by intro pl h; cases h⟩
  | pl :: rest, hall => by
    rw [List.all_cons, Bool.and_eq_true] at hall
    obtain ⟨h1, h2⟩ := hall
    rw [decide_eq_true_eq] at h1
    cases hc : PropsOps.cellAt pl.props planeRotation with
    | none => rw [hc] at h1; cases h1
    | some c =>
      rw [hc] at h1
      have hl : c.enumMap.lookup t = some v := by simpa using h1
      have hstage : (pl.setTransformation t).1 = true
          ∧ (pl.setTransformation t).2.transformation = v := by
        unfold Plane.setTransformation PropsOps.setEnum Cell.setEnum
        rw [get?_of_cellAt pl.props planeRotation c hc]
        simp only [hl]
        refine ⟨trivial, ?_⟩
        unfold Plane.transformation PropsOps.cellAt
        have hset := List.get?_set_eq (some (c.setPending v)) planeRotation pl.props
        rw [get?_of_cellAt pl.props planeRotation c hc] at hset
        simp only
        rw [hset]
        rfl
      have ih := stageTransformation_all t v rest h2
      unfold stageTransformation
      simp only [hstage.1, Bool.not_true, Bool.false_eq_true, if_false, reduceIte]
      refine ⟨ih.1, ?_⟩
      intro x hx
      rcases List.mem_cons.mp hx with hx | hx
      · subst hx
        exact hstage.2
      · exact ih.2 x hx

theorem setPendingTransformation_success (env : Env) (p : Pipeline)
    (hat : env.gpu.atomicModeSetting = true)
    (htr : p.transformation ≠ rotate0)
    (hall : (p.primaryPlanes.all fun pl =>
        decide ((PropsOps.cellAt pl.props planeRotation).map (fun c => c.enumMap.lookup rotate0)
          = some (some rotate0))) = true) :
    (setPendingTransformation env p rotate0).1 = true
    ∧ (setPendingTransformation env p rotate0).2
        = { p with primaryPlanes := (stageTransformation rotate0 p.primaryPlanes).2 }
    ∧ ∀ pl ∈ (stageTransformation rotate0 p.primaryPlanes).2, pl.transformation = rotate0 := by
  have hst := stageTransformation_all rotate0 rotate0 p.primaryPlanes hall
  unfold setPendingTransformation
  have hbeq : (p.transformation == rotate0) = false := by
    simp [htr]
  rw [hbeq, hat]
  simp only [Bool.not_true, Bool.false_eq_true, if_false, reduceIte, hst.1]
  exact ⟨trivial, trivial, hst.2⟩

theorem setOverscan_pendingModeIndex (c : Connector) (pct : Nat) (ms : Nat × Nat) :
    (c.setOverscan pct ms).pendingModeIndex = c.pendingModeIndex := by
  unfold Connector.setOverscan
  cases PropsOps.cellAt c.props connOverscan with
  | some _ => rfl
  | none =>
    cases PropsOps.cellAt c.props connUnderscan with
    | some _ => rfl
    | none => rfl

theorem setValues_at (ps : List Pipeline) (i target : Nat) (hi : i < ps.length) :
    (pipeAt (modesetSetValues ps i target) i).primaryPlanes = (pipeAt ps i).primaryPlanes
    ∧ ((pipeAt ps i).connectors ≠ [] → (pipeAt ps i).crtcs ≠ [] →
        (pipeAt (modesetSetValues ps i target) i).modeIndex = target) := by
  unfold modesetSetValues
  rw [pipeAt_set _ _ _ hi]
  refine ⟨rfl, ?_⟩
  intro hconn hcrtc
  obtain ⟨c, cs, hc⟩ := List.exists_cons_of_ne_nil hconn
  obtain ⟨r, rs, hr⟩ := List.exists_cons_of_ne_nil hcrtc
  show ((_ : List Connector).headD _).modeIndex = target
  rw [hc, hr]
  simp only [List.zip_cons_cons, List.map_cons, List.cons_append, List.headD_cons]
  unfold Connector.modeIndex
  split
  · rw [setOverscan_pendingModeIndex]
    rfl
  · rfl

theorem transformation_headD (p : Pipeline) :
    p.transformation = (rotationProfile p).headD rotate0 := by
  unfold Pipeline.transformation rotationProfile
  cases p.primaryPlanes with
  | nil => rfl
  | cons a l => rfl

theorem transformation_commitPending (pl : Plane) :
    (Plane.commitPending pl).transformation = pl.transformation := by
  unfold Plane.commitPending Plane.transformation PropsOps.commitPending PropsOps.cellAt
  rw [List.get?_map]
  cases pl.props.get? planeRotation with
  | none => rfl
  | some oc =>
    cases oc with
    | none => rfl
    | some c => rfl

theorem commitState_true_rot (q : Pipeline) :
    rotationProfile (q.commitPipelineState true) = rotationProfile q := by
  show (q.primaryPlanes.map Plane.commitPending).map Plane.transformation
    = q.primaryPlanes.map Plane.transformation
  rw [List.map_map]
  exact List.map_congr_left fun pl _ => transformation_commitPending pl

theorem commitState_true_modeIndex (q : Pipeline) :
    (q.commitPipelineState true).modeIndex = q.modeIndex := by
  show ((q.connectors.map Connector.commitPending).headD _).modeIndex
    = (q.connectors.headD _).modeIndex
  cases q.connectors with
  | nil => rfl
  | cons c cs => rfl

theorem modeIndex_of_connectors {p q : Pipeline} (h : p.connectors = q.connectors) :
    p.modeIndex = q.modeIndex := by
  unfold Pipeline.modeIndex
  rw [h]

theorem rotationProfile_of_planes {p q : Pipeline} (h : p.primaryPlanes = q.primaryPlanes) :
    rotationProfile p = rotationProfile q := by
  unfold rotationProfile
  rw [h]

theorem getD_map_lt {α β : Type} (f : α → β) (l : List α) (i : Nat) (h : i < l.length)
    (d : β) (e : α) : (l.map f).getD i d = f (l.getD i e) := by
  rw [List.getD_eq_getElem?_getD, List.getD_eq_getElem?_getD, List.getElem?_map,
    List.getElem?_eq_getElem h]
  rfl

/-- The first attempt of the atomic modeset: stage the wanted mode and
test. -/
def msFirstTry (env : Env) (ps : List Pipeline) (i target k : Nat) :
    Bool × List Pipeline × Nat × List Ioctl :=
  testPipelines env (modesetSetValues ps i target) i k

/-- The pipeline after the soft-rotation fallback staged Rotate0. -/
def msRetryBase (env : Env) (ps : List Pipeline) (i target k : Nat) : Pipeline :=
  (setPendingTransformation env (pipeAt (msFirstTry env ps i target k).2.1 i) rotate0).2

/-- The second attempt: restage the mode values over the Rotate0 state and
test again. -/
def msSecondTry (env : Env) (ps : List Pipeline) (i target k : Nat) :
    Bool × List Pipeline × Nat × List Ioctl :=
  testPipelines env
    (modesetSetValues
      ((msFirstTry env ps i target k).2.1.set i (msRetryBase env ps i target k)) i target)
    i (msFirstTry env ps i target k).2.2.1

theorem modesetAtomic_retry_char (env : Env) (ps : List Pipeline) (i target k : Nat)
    (hfail₁ : (msFirstTry env ps i target k).1 = false)
    (htr : (pipeAt (msFirstTry env ps i target k).2.1 i).transformation ≠ rotate0)
    (hrt : (setPendingTransformation env
      (pipeAt (msFirstTry env ps i target k).2.1 i) rotate0).1 = true) :
    modesetAtomic env ps i target k
      = ((msSecondTry env ps i target k).1, (msSecondTry env ps i target k).2.1,
         (msSecondTry env ps i target k).2.2.1,
         (msFirstTry env ps i target k).2.2.2 ++ (msSecondTry env ps i target k).2.2.2) := by
  have hbne : ((pipeAt (msFirstTry env ps i target k).2.1 i).transformation != rotate0)
      = true := by
    simpa using htr
  unfold modesetAtomic
  unfold msSecondTry msRetryBase
  unfold msFirstTry at hfail₁ hbne hrt ⊢
  simp only [hfail₁, Bool.false_eq_true, if_false, reduceIte, hbne, if_true, hrt]

theorem testPipelines_success_modeIdx_rot (env : Env) (ps : List Pipeline) (i k : Nat)
    (hat : env.gpu.atomicModeSetting = true) (halloc : env.atomicAllocOk = true)
    (hi : i < ps.length)
    (hs : (testPipelines env ps i k).1 = true) :
    (pipeAt (testPipelines env ps i k).2.1 i).modeIndex = (pipeAt ps i).modeIndex
    ∧ (pipeAt (testPipelines env ps i k).2.1 i).transformation = (pipeAt ps i).transformation := by
  rw [testPipelines_success_state env ps i k hat halloc hs]
  have lenset : (ps.set i (checkTestBuffer env (pipeAt ps i)).2).length = ps.length :=
    List.length_set ps i _
  have lenprl : (processAll env (ps.set i (checkTestBuffer env (pipeAt ps i)).2) 0).2.1.length
      = ps.length := by
    rw [(processAll_rel env _ 0).1, lenset]
  have hip : i < (processAll env (ps.set i (checkTestBuffer env (pipeAt ps i)).2) 0).2.1.length := by
    rw [lenprl]; exact hi
  have hmapAt : pipeAt
      ((processAll env (ps.set i (checkTestBuffer env (pipeAt ps i)).2) 0).2.1.map
        (fun q => q.commitPipelineState true)) i
      = ((processAll env (ps.set i (checkTestBuffer env (pipeAt ps i)).2) 0).2.1.getD i
          default).commitPipelineState true := by
    unfold pipeAt
    exact getD_map_lt _ _ i hip default default
  rw [hmapAt]
  have hmem := zip_getD_mem
    (processAll env (ps.set i (checkTestBuffer env (pipeAt ps i)).2) 0).2.1
    (ps.set i (checkTestBuffer env (pipeAt ps i)).2) i hip (by rw [lenset]; exact hi)
    default default
  have hrel := (processAll_rel env (ps.set i (checkTestBuffer env (pipeAt ps i)).2) 0).2 _ hmem
  have hsetAt : (ps.set i (checkTestBuffer env (pipeAt ps i)).2).getD i default
      = (checkTestBuffer env (pipeAt ps i)).2 :=
    pipeAt_set ps _ i hi
  have hctbRel := checkTestBuffer_rel env (pipeAt ps i)
  constructor
  · rw [commitState_true_modeIndex]
    refine modeIndex_of_connectors ?_
    rw [hrel.2.1, hsetAt]
    exact hctbRel.2.1
  · rw [transformation_headD, commitState_true_rot, hrel.2.2.2.1, hsetAt,
      hctbRel.2.2.2.1, ← transformation_headD]

/-- C5 (amended): in an atomic-mode modeset whose first test fails while
the transformation is not Rotate0 and whose planes' rotation enum maps
Rotate0 to the DRM rotate-0 value, the operation stages Rotate0, restages
the mode values, and tests again.  If the second test succeeds, modeset
returns true with the mode index at the target and the transformation at
Rotate0.  If the second test also fails — with the failure reaching the
commit path (the direct test-buffer check having succeeded; a test that
dies in checkTestBuffer performs no rollback) — modeset returns false and
every pipeline ends with every pending value equal to its current value
and no parked test buffer. -/
theorem C5_modeset_retry_amended (env : Env) (ps : List Pipeline) (i target k : Nat)
    (hat : env.gpu.atomicModeSetting = true)
    (halloc : env.atomicAllocOk = true)
    (hi : i < ps.length)
    (hfail₁ : (msFirstTry env ps i target k).1 = false)
    (htr : (pipeAt (msFirstTry env ps i target k).2.1 i).transformation ≠ rotate0)
    (hall : ((pipeAt (msFirstTry env ps i target k).2.1 i).primaryPlanes.all fun pl =>
        decide ((PropsOps.cellAt pl.props planeRotation).map (fun c => c.enumMap.lookup rotate0)
          = some (some rotate0))) = true)
    (hconn : (msRetryBase env ps i target k).connectors ≠ [])
    (hcrtc : (msRetryBase env ps i target k).crtcs ≠ []) :
    ((msSecondTry env ps i target k).1 = true →
      (modesetAtomic env ps i target k).1 = true
      ∧ (pipeAt (modesetAtomic env ps i target k).2.1 i).modeIndex = target
      ∧ (pipeAt (modesetAtomic env ps i target k).2.1 i).transformation = rotate0)
    ∧ ((msSecondTry env ps i target k).1 = false →
        (checkTestBuffer env
          (pipeAt (modesetSetValues
            ((msFirstTry env ps i target k).2.1.set i (msRetryBase env ps i target k))
            i target) i)).1 = true →
        (modesetAtomic env ps i target k).1 = false
        ∧ ∀ q ∈ (modesetAtomic env ps i target k).2.1,
            q.allCellsClean = true ∧ q.oldTestBuffer = none) := by
  have hrt := setPendingTransformation_success env
    (pipeAt (msFirstTry env ps i target k).2.1 i) hat htr hall
  have hchar := modesetAtomic_retry_char env ps i target k hfail₁ htr hrt.1
  have len₁ : (msFirstTry env ps i target k).2.1.length = ps.length := by
    unfold msFirstTry
    rw [testPipelines_length, modesetSetValues_length]
  have lenSet : ((msFirstTry env ps i target k).2.1.set i
      (msRetryBase env ps i target k)).length = ps.length := by
    rw [List.length_set, len₁]
  have hiSet : i < ((msFirstTry env ps i target k).2.1.set i
      (msRetryBase env ps i target k)).length := by
    rw [lenSet]; exact hi
  have len₃ : (modesetSetValues
      ((msFirstTry env ps i target k).2.1.set i (msRetryBase env ps i target k))
      i target).length = ps.length := by
    rw [modesetSetValues_length, lenSet]
  have hi₃ : i < (modesetSetValues
      ((msFirstTry env ps i target k).2.1.set i (msRetryBase env ps i target k))
      i target).length := by
    rw [len₃]; exact hi
  have hbaseAt : pipeAt ((msFirstTry env ps i target k).2.1.set i
      (msRetryBase env ps i target k)) i = msRetryBase env ps i target k := by
    apply pipeAt_set
    rw [len₁]; exact hi
  have hsv := setValues_at
    ((msFirstTry env ps i target k).2.1.set i (msRetryBase env ps i target k)) i target hiSet
  constructor
  · intro hs₂
    have haux := testPipelines_success_modeIdx_rot env
      (modesetSetValues
        ((msFirstTry env ps i target k).2.1.set i (msRetryBase env ps i target k)) i target)
      i (msFirstTry env ps i target k).2.2.1 hat halloc hi₃ hs₂
    refine ⟨by rw [hchar]; exact hs₂, ?_, ?_⟩
    · rw [hchar]
      show (pipeAt (msSecondTry env ps i target k).2.1 i).modeIndex = target
      rw [show (pipeAt (msSecondTry env ps i target k).2.1 i).modeIndex
          = (pipeAt (modesetSetValues
              ((msFirstTry env ps i target k).2.1.set i (msRetryBase env ps i target k))
              i target) i).modeIndex from haux.1]
      refine hsv.2 ?_ ?_
      · rw [hbaseAt]; exact hconn
      · rw [hbaseAt]; exact hcrtc
    · rw [hchar]
      show (pipeAt (msSecondTry env ps i target k).2.1 i).transformation = rotate0
      rw [show (pipeAt (msSecondTry env ps i target k).2.1 i).transformation
          = (pipeAt (modesetSetValues
              ((msFirstTry env ps i target k).2.1.set i (msRetryBase env ps i target k))
              i target) i).transformation from haux.2]
      have hplanes : (pipeAt (modesetSetValues
          ((msFirstTry env ps i target k).2.1.set i (msRetryBase env ps i target k))
          i target) i).primaryPlanes
          = (stageTransformation rotate0
              (pipeAt (msFirstTry env ps i target k).2.1 i).primaryPlanes).2 := by
        rw [hsv.1, hbaseAt]
        unfold msRetryBase
        rw [hrt.2.1]
      unfold Pipeline.transformation
      rw [hplanes]
      cases hsp : (stageTransformation rotate0
          (pipeAt (msFirstTry env ps i target k).2.1 i).primaryPlanes).2 with
      | nil => rfl
      | cons a l =>
        simp only [List.head?_cons]
        exact hrt.2.2 a (by rw [hsp]; exact List.mem_cons_self a l)
  · intro hf₂ hctb₂
    refine ⟨by rw [hchar]; exact hf₂, ?_⟩
    rw [hchar]
    show ∀ q ∈ (msSecondTry env ps i target k).2.1, _
    exact testPipelines_fail_members env _ i (msFirstTry env ps i target k).2.2.1
      hat halloc hctb₂ hf₂

/-- An atomic environment in which no test buffer can ever be produced:
no GBM support and the dumb-buffer allocation yields an invalid (id 0)
framebuffer. -/
def noBufferEnv : Env :=
  ⟨⟨true, false, false, false, false⟩, false, none, none, ⟨0, 800, 600, 0⟩,
   true, true, (fun _ => true), true, true, true, true, (fun _ => 0)⟩

/-- A pipeline with three modes, a CRTC MODE_ID cell at blob 5, a plane
rotation cell staged at Rotate90 (mapping Rotate0 ↦ 1, Rotate90 ↦ 2), and
no primary buffer. -/
def rotatedPipe : Pipeline :=
  ⟨[⟨[], [⟨800, 600, 60, 5⟩, ⟨1024, 768, 60, 6⟩, ⟨640, 480, 60, 7⟩], 0, 0,
      TilingInfo.untiled⟩],
   [⟨[some ⟨21, 1, 1, 1, false, false, []⟩, some ⟨22, 5, 5, 5, false, false, []⟩], none, none⟩],
   [⟨[some ⟨31, 0, 0, 0, false, false, []⟩, none, none, none, none, none, none, none, none,
      none, some ⟨32, 2, 2, 2, false, false, [(1, 1), (2, 2)]⟩], none, none⟩],
   none, none, true, true, (0, 0), (0, 0), none, true, true, 0, false⟩

/-- C5 counterexample: when both tests die in checkTestBuffer (no test
buffer can be produced), the failing test never reaches commitPipelines
and performs no rollback, so modeset(2) returns false with pending cells
(the staged MODE_ID blob and the staged Rotate0) still differing from
their current values — contradicting the claim's "all pending cells are
back to their current values (rolled back by the failed test)". -/
theorem C5_modeset_retry_counterexample :
    (msFirstTry noBufferEnv [rotatedPipe] 0 2 0).1 = false
    ∧ (pipeAt (msFirstTry noBufferEnv [rotatedPipe] 0 2 0).2.1 0).transformation ≠ rotate0
    ∧ (msSecondTry noBufferEnv [rotatedPipe] 0 2 0).1 = false
    ∧ (modesetAtomic noBufferEnv [rotatedPipe] 0 2 0).1 = false
    ∧ ∃ q ∈ (modesetAtomic noBufferEnv [rotatedPipe] 0 2 0).2.1,
        q.allCellsClean = false := by
  decide

/-- An environment whose EGL backend always renders a valid test frame
and whose kernel rejects the first TEST_ONLY ioctl but accepts the
second. -/
def retryEnv : Env :=
  ⟨⟨true, false, true, false, false⟩, true, some ⟨44, 480, 640, 7⟩, none, ⟨0, 0, 0, 0⟩,
   true, true, (fun n => n != 0), true, true, true, true, (fun _ => 0)⟩

/-- The rotated pipeline with an output assigned (so the backend's test
frame ladder is available). -/
def rotatedOutputPipe : Pipeline :=
  ⟨[⟨[], [⟨800, 600, 60, 5⟩, ⟨1024, 768, 60, 6⟩, ⟨640, 480, 60, 7⟩], 0, 0,
      TilingInfo.untiled⟩],
   [⟨[some ⟨21, 1, 1, 1, false, false, []⟩, some ⟨22, 5, 5, 5, false, false, []⟩], none, none⟩],
   [⟨[some ⟨31, 0, 0, 0, false, false, []⟩, none, none, none, none, none, none, none, none,
      none, some ⟨32, 2, 2, 2, false, false, [(1, 1), (2, 2)]⟩], none, none⟩],
   none, none, true, true, (0, 0), (0, 0), none, true, true, 0, true⟩

/-- C5 witness: the kernel rejects the first test of modeset(2) with
Rotate90 staged and accepts the retry with Rotate0; modeset returns true,
the mode index lands on 2 and the transformation on Rotate0. -/
theorem C5_modeset_retry_amended_witness :
    (msSecondTry retryEnv [rotatedOutputPipe] 0 2 0).1 = true
    ∧ (modesetAtomic retryEnv [rotatedOutputPipe] 0 2 0).1 = true
    ∧ (pipeAt (modesetAtomic retryEnv [rotatedOutputPipe] 0 2 0).2.1 0).modeIndex = 2
    ∧ (pipeAt (modesetAtomic retryEnv [rotatedOutputPipe] 0 2 0).2.1 0).transformation
        = rotate0 :=
  ⟨by decide,
   (C5_modeset_retry_amended retryEnv [rotatedOutputPipe] 0 2 0 (by decide) (by decide)
     (by decide) (by decide) (by decide) (by decide) (by decide) (by decide)).1 (by decide)⟩

end DrmSpec
